import Mathlib

/-!
MyWindowsManager: a shallow embedding of the two tiling variants of the window manager,
`nothing.cpp` (status bar, focus tracking, close/kill) and `yourmom.cpp`
(plain tiling), followed by theorems about the registry, the tiling engine
and the focus controller.

Conventions of the embedding

* C++ `int` values are mathematical integers (`Int`); `/` on `int` is
  `Int.tdiv` (truncation toward zero).
* The mutable globals of a variant form its `State`; one iteration of the
  `while (true)` loop of `main` is the function `dispatch`, which returns the
  new globals, the Xlib requests issued (in program order) and the value
  returned from `main`, if the iteration returned.
* Xlib requests are recorded with the values the parameters receive at the
  call site: an `int` expression passed to an `unsigned int` parameter (the
  width and height of `XMoveResizeWindow`) is converted modulo `2 ^ 32`.
  Round trips (`XGetWindowAttributes`, `XGetWMProtocols`, ...)
  are answered by a `Replies` record supplied with each event.
* `float` is IEEE-754 binary32 with round-to-nearest-even; a float value is
  carried as an integer numerator over `2 ^ 24`.
-/

namespace MyWindowsManager

/-! ## Xlib vocabulary -/

abbrev Window := Nat
abbrev Atom := Nat
abbrev KeyCode := Nat

/-- Xlib `None`: the null resource id. -/
abbrev None : Window := 0

abbrev CurrentTime : Nat := 0
abbrev NoEventMask : Nat := 0
abbrev KeyPressMask : Nat := 1
abbrev ButtonPressMask : Nat := 4
abbrev ButtonReleaseMask : Nat := 8
abbrev EnterWindowMask : Nat := 16
abbrev PointerMotionMask : Nat := 64
abbrev ExposureMask : Nat := 32768
abbrev StructureNotifyMask : Nat := 131072
abbrev ShiftMask : Nat := 1
abbrev Mod4Mask : Nat := 64
abbrev ClientMessage : Nat := 33
abbrev NotifyNormal : Int := 0

/-- The value an `int` argument has once it is passed to a parameter of type
`unsigned int` (32 bits): the conversion is modulo `2 ^ 32`, so a negative `-k` arrives
as `2 ^ 32 - k`. -/
def unsigned_int (v : Int) : Int := v % 4294967296

/-- Pixel values used for borders: `XWhitePixel` and `XBlackPixel` of the default screen. -/
inductive Pixel where
  | XWhitePixel
  | XBlackPixel
  deriving DecidableEq, Repr

/-- The fields of `XWindowAttributes` the program reads. -/
structure XWindowAttributes where
  x : Int
  y : Int
  width : Int
  height : Int
  deriving DecidableEq, Repr

/-- The `XWindowChanges` record forwarded by the ConfigureRequest handler. -/
structure XWindowChanges where
  x : Int
  y : Int
  width : Int
  height : Int
  border_width : Int
  sibling : Window
  stack_mode : Int
  deriving DecidableEq, Repr

/-- The fields of `XClientMessageEvent` that `close_window` fills in after `memset`. -/
structure XClientMessageEvent where
  type : Nat
  window : Window
  message_type : Atom
  format : Nat
  data_l0 : Nat
  data_l1 : Nat
  deriving DecidableEq, Repr

/-- Requests issued by the program, one constructor per Xlib entry point
(and one for the process spawner `execute_command`).  The `width` and `height` of
`XMoveResizeWindow` are `unsigned int` parameters: they hold values in `0 .. 2 ^ 32 - 1`. -/
inductive Call where
  | XSelectInput (w : Window) (event_mask : Nat)
  | XSetWindowBorderWidth (w : Window) (width : Int)
  | XSetWindowBorder (w : Window) (border : Pixel)
  | XMapWindow (w : Window)
  | XMoveResizeWindow (w : Window) (x y width height : Int)
  | XMoveWindow (w : Window) (x y : Int)
  | XSetInputFocus (focus : Window)
  | XConfigureWindow (w : Window) (value_mask : Nat) (changes : XWindowChanges)
  | XGrabPointer (grab_window : Window) (event_mask : Nat)
  | XUngrabPointer
  | XSendEvent (w : Window) (event_mask : Nat) (cm : XClientMessageEvent)
  | XKillClient (resource : Window)
  | XClearWindow (w : Window)
  | XDrawString (w : Window) (x y : Int) (text : String)
  | XCloseDisplay
  | execute_command (command_args : List String)
  deriving DecidableEq, Repr

/-- The events `main` switches on, with the fields the handlers read. -/
inductive XEvent where
  | CreateNotify (window : Window)
  | MapRequest (window : Window)
  | ConfigureRequest (window : Window) (x y width height border_width : Int)
      (above : Window) (detail : Int) (value_mask : Nat)
  | DestroyNotify (window : Window)
  | PropertyNotify (window : Window) (atom : Atom)
  | Expose (window : Window)
  | ButtonPress (button : Nat) (subwindow : Window) (x_root y_root : Int)
  | MotionNotify (x_root y_root : Int)
  | ButtonRelease (button : Nat)
  | EnterNotify (window : Window) (mode : Int)
  | KeyPress (keycode : KeyCode) (state : Nat)
  | other (type : Nat)
  deriving DecidableEq, Repr

/-- Answers of the display server to the round trips made while one event is handled. -/
structure Replies where
  /-- `XGetWindowAttributes(display, root_window, &root_attrs)` -/
  root_attrs : XWindowAttributes
  /-- `XGetWindowAttributes(display, w, &win_attrs)` for a client window -/
  win_attrs : Window → XWindowAttributes
  /-- `XGetWMProtocols`: `none` when the status is zero, else the advertised atoms -/
  wm_protocols : Window → Option (List Atom)
  /-- `_NET_WM_NAME` of the root window, when the property read succeeds with items -/
  net_wm_name : Option String
  /-- `XGetInputFocus` -/
  input_focus : Window

/-- Values fixed by the bootstrap part of `main` before the loop starts. -/
structure Session where
  root_window : Window
  statusbar_window : Window
  WM_PROTOCOLS : Atom
  WM_DELETE_WINDOW : Atom
  NET_WM_NAME : Atom
  key_enter_keycode : KeyCode
  key_a_keycode : KeyCode
  key_d_keycode : KeyCode
  key_e_keycode : KeyCode
  key_q_keycode : KeyCode
  key_m_keycode : KeyCode
  deriving DecidableEq, Repr

/-! ## binary32 arithmetic for `screen_width * master_ratio` -/

/-- Number of binary digits of `n`, by halving at most `fuel` times. -/
def bit_length_from : Nat → Nat → Nat
  | 0, _ => 0
  | fuel + 1, n => if n = 0 then 0 else bit_length_from fuel (n / 2) + 1

/-- Number of binary digits of `n` (`n` halvings always suffice). -/
def bit_length (n : Nat) : Nat := bit_length_from n n

/-- Nearest multiple of `2 ^ k` to `n`, ties to the multiple with even quotient. -/
def round_to_even (k n : Nat) : Nat :=
  let q := n / 2 ^ k
  let r := n % 2 ^ k
  if 2 * r < 2 ^ k then q * 2 ^ k
  else if 2 ^ k < 2 * r then (q + 1) * 2 ^ k
  else if q % 2 = 0 then q * 2 ^ k
  else (q + 1) * 2 ^ k

/-- Rounding to the 24 significant bits of binary32 (round-to-nearest-even),
on a nonnegative numerator; the scale is a power of two and is unaffected. -/
def float_round (n : Nat) : Nat := round_to_even (bit_length n - 24) n

/-- The value of `const float master_ratio = 0.6`, as a numerator over `2 ^ 24`:
the binary32 number nearest to 0.6 is `10066330 / 2 ^ 24`. -/
def master_ratio : Nat := 10066330

/-- The initialiser `const int master_width = screen_width * master_ratio;`:
`screen_width` is converted to `float`, multiplied in binary32, and the product
is truncated toward zero when it is stored in the `int`. -/
def master_width (screen_width : Int) : Int :=
  let converted := float_round screen_width.natAbs
  let product := float_round (converted * master_ratio)
  let truncated : Int := ((product / 2 ^ 24 : Nat) : Int)
  if screen_width < 0 then -truncated else truncated

/-- The loop of `close_window` over the advertised protocols, leaving at the first match. -/
def delete_supported_loop (WM_DELETE_WINDOW : Atom) : List Atom → Bool
  | [] => false
  | p :: protocols =>
      if p = WM_DELETE_WINDOW then true else delete_supported_loop WM_DELETE_WINDOW protocols

/-- The delete request built by `close_window`. -/
def delete_message (cfg : Session) (window : Window) : XClientMessageEvent :=
  { type := ClientMessage, window := window, message_type := cfg.WM_PROTOCOLS,
    format := 32, data_l0 := cfg.WM_DELETE_WINDOW, data_l1 := CurrentTime }

/-- Outcome of `std::find(v.begin(), v.end(), value) == v.end()`. -/
def find_is_end (v : List Window) (value : Window) : Bool :=
  match v with
  | [] => true
  | x :: rest => if x = value then false else find_is_end rest value

/-- The erase-remove idiom `v.erase(std::remove(v.begin(), v.end(), value), v.end())`:
every element equal to `value` is dropped, the others keep their order. -/
def erase_remove (v : List Window) (value : Window) : List Window :=
  match v with
  | [] => []
  | x :: rest => if x = value then erase_remove rest value else x :: erase_remove rest value

/-- The loop `for (i...) if (v[i] == value) { v.erase(v.begin() + i); break; }`:
only the first element equal to `value` is dropped. -/
def erase_first (v : List Window) (value : Window) : List Window :=
  match v with
  | [] => []
  | x :: rest => if x = value then rest else x :: erase_first rest value

/-! ## The display-side view used to state claims about borders and the pointer grab -/

/-- What the display shows as a consequence of the requests issued so far. -/
structure Display where
  /-- current border pixel of each window -/
  border : Window → Pixel
  /-- a DestroyNotify for the id was delivered and no CreateNotify since -/
  destroyed : Window → Bool
  /-- an active pointer grab is held by the manager -/
  pointer_grabbed : Bool

/-- Effect of one request on the display-side view. -/
def Display.apply (d : Display) : Call → Display
  | Call.XSetWindowBorder w border =>
      { d with border := fun v => if v = w then border else d.border v }
  | Call.XGrabPointer _ _ => { d with pointer_grabbed := true }
  | Call.XUngrabPointer => { d with pointer_grabbed := false }
  | _ => d

/-- Effect of the delivered event itself on the display-side view. -/
def Display.observe (d : Display) : XEvent → Display
  | XEvent.CreateNotify w => { d with destroyed := fun v => if v = w then false else d.destroyed v }
  | XEvent.DestroyNotify w => { d with destroyed := fun v => if v = w then true else d.destroyed v }
  | _ => d

/-! ## nothing.cpp -/

namespace Nothing

def border_width : Int := 2
def statusbar_height : Int := 20
def focused_border_color : Pixel := Pixel.XWhitePixel
def unfocused_border_color : Pixel := Pixel.XBlackPixel

/-- The mutable globals of nothing.cpp. -/
structure State where
  is_moving : Bool
  start_x : Int
  start_y : Int
  start_win_x : Int
  start_win_y : Int
  current_moving_window : Window
  managed_windows : List Window
  focused_window : Window
  deriving DecidableEq, Repr

/-- The globals as initialised at program start. -/
def State.initial : State :=
  { is_moving := false, start_x := 0, start_y := 0, start_win_x := 0, start_win_y := 0,
    current_moving_window := None, managed_windows := [], focused_window := None }

/-- Result of one iteration of the event loop. -/
structure Outcome where
  state : State
  calls : List Call
  /-- the value returned from `main`, when the iteration executed `return` -/
  returned : Option Int

def execute_command (command_args : List String) : List Call :=
  [Call.execute_command command_args]

def close_window (cfg : Session) (r : Replies) (window : Window) : List Call :=
  let delete_supported :=
    match r.wm_protocols window with
    | some protocols => delete_supported_loop cfg.WM_DELETE_WINDOW protocols
    | none => false
  if delete_supported then
    [Call.XSendEvent window NoEventMask (delete_message cfg window)]
  else
    [Call.XKillClient window]

/-- The initialiser `const int stack_height = (screen_height - statusbar_height) / (num_windows - 1);` -/
def stack_height (screen_height num_windows : Int) : Int :=
  (screen_height - statusbar_height).tdiv (num_windows - 1)

/-- The `for (int i = 1; i < num_windows; ++i)` loop of `tile_windows`, entered at
index `i` with the registry entries from index `i` on. -/
def stack_loop (master_width stack_width stack_height : Int) : Int → List Window → List Call
  | _, [] => []
  | i, w :: rest =>
      Call.XMoveResizeWindow w master_width ((i - 1) * stack_height + statusbar_height)
          (unsigned_int (stack_width - 2 * border_width))
          (unsigned_int (stack_height - 2 * border_width))
        :: stack_loop master_width stack_width stack_height (i + 1) rest

def tile_windows (managed_windows : List Window) (root_attrs : XWindowAttributes) : List Call :=
  match managed_windows with
  | [] => []
  | w0 :: stack =>
      let num_windows : Int := ((w0 :: stack).length : Int)
      let screen_width := root_attrs.width
      let screen_height := root_attrs.height
      if num_windows = 1 then
        [Call.XMoveResizeWindow w0 0 statusbar_height
          (unsigned_int (screen_width - 2 * border_width))
          (unsigned_int (screen_height - statusbar_height - 2 * border_width))]
      else
        let master_width := master_width screen_width
        let stack_width := screen_width - master_width
        let stack_height := stack_height screen_height num_windows
        Call.XMoveResizeWindow w0 0 statusbar_height
            (unsigned_int (master_width - 2 * border_width))
            (unsigned_int (screen_height - statusbar_height - 2 * border_width))
          :: stack_loop master_width stack_width stack_height 1 stack

def set_window_border (window : Window) (is_focused : Bool) : List Call :=
  if is_focused then [Call.XSetWindowBorder window focused_border_color]
  else [Call.XSetWindowBorder window unfocused_border_color]

/-- The status bar redraw: the window is cleared and the root window name, when the
property read succeeds, is drawn at (5, 15).  The graphics context created and freed
inside the function is not recorded. -/
def draw_statusbar (cfg : Session) (r : Replies) : List Call :=
  Call.XClearWindow cfg.statusbar_window ::
    (match r.net_wm_name with
     | some prop => [Call.XDrawString cfg.statusbar_window 5 15 prop]
     | none => [])

/-- The `case KeyPress:` chain of `main`. -/
def key_press (cfg : Session) (r : Replies) (s : State) (keycode : KeyCode) (state : Nat) :
    Outcome :=
  if keycode = cfg.key_enter_keycode ∧ state &&& Mod4Mask ≠ 0 then
    { state := s, calls := execute_command ["konsole"], returned := none }
  else if keycode = cfg.key_d_keycode ∧ state &&& Mod4Mask ≠ 0 then
    { state := s, calls := execute_command ["dmenu_run"], returned := none }
  else if keycode = cfg.key_e_keycode ∧ state &&& Mod4Mask ≠ 0 then
    { state := s, calls := execute_command ["dolphin"], returned := none }
  else if keycode = cfg.key_q_keycode ∧ state &&& Mod4Mask ≠ 0 ∧ ¬ (state &&& ShiftMask ≠ 0) then
    if s.focused_window ≠ None ∧ s.focused_window ≠ cfg.root_window then
      { state := s, calls := close_window cfg r s.focused_window, returned := none }
    else { state := s, calls := [], returned := none }
  else if keycode = cfg.key_q_keycode ∧ state &&& Mod4Mask ≠ 0 ∧ state &&& ShiftMask ≠ 0 then
    if s.focused_window ≠ None ∧ s.focused_window ≠ cfg.root_window then
      { state := s, calls := [Call.XKillClient s.focused_window], returned := none }
    else { state := s, calls := [], returned := none }
  else if keycode = cfg.key_m_keycode ∧ state &&& Mod4Mask ≠ 0 then
    { state := s, calls := [Call.XCloseDisplay], returned := some 0 }
  else { state := s, calls := [], returned := none }

/-- One iteration of `while (true) { XNextEvent(...); switch (event.type) ... }`. -/
def dispatch (cfg : Session) (r : Replies) (s : State) : XEvent → Outcome
  | XEvent.CreateNotify window =>
      { state := s,
        calls :=
          [Call.XSelectInput window
              (StructureNotifyMask ||| ExposureMask ||| KeyPressMask ||| ButtonPressMask
                ||| EnterWindowMask),
            Call.XSetWindowBorderWidth window border_width]
          ++ set_window_border window false,
        returned := none }
  | XEvent.MapRequest window =>
      let managed_windows :=
        if find_is_end s.managed_windows window then s.managed_windows ++ [window]
        else s.managed_windows
      { state := { s with managed_windows := managed_windows, focused_window := window },
        calls :=
          [Call.XMapWindow window] ++ tile_windows managed_windows r.root_attrs
          ++ (if s.focused_window ≠ None then set_window_border s.focused_window false else [])
          ++ [Call.XSetInputFocus window] ++ set_window_border window true,
        returned := none }
  | XEvent.ConfigureRequest window x y width height border_width above detail value_mask =>
      { state := s,
        calls :=
          [Call.XConfigureWindow window value_mask
            { x := x, y := y, width := width, height := height, border_width := border_width,
              sibling := above, stack_mode := detail }],
        returned := none }
  | XEvent.DestroyNotify window =>
      let managed_windows := erase_remove s.managed_windows window
      { state :=
          { s with
            managed_windows := managed_windows,
            focused_window := if s.focused_window = window then None else s.focused_window },
        calls := tile_windows managed_windows r.root_attrs,
        returned := none }
  | XEvent.PropertyNotify window atom =>
      { state := s,
        calls := if window = cfg.root_window ∧ atom = cfg.NET_WM_NAME then draw_statusbar cfg r
                 else [],
        returned := none }
  | XEvent.Expose window =>
      { state := s,
        calls := if window = cfg.statusbar_window then draw_statusbar cfg r else [],
        returned := none }
  | XEvent.ButtonPress button subwindow x_root y_root =>
      if button = 1 then
        if subwindow = None then
          { state := { s with is_moving := false, current_moving_window := subwindow },
            calls := [], returned := none }
        else
          { state :=
              { s with
                is_moving := true,
                current_moving_window := subwindow,
                start_win_x := (r.win_attrs subwindow).x,
                start_win_y := (r.win_attrs subwindow).y,
                start_x := x_root,
                start_y := y_root },
            calls :=
              [Call.XGrabPointer cfg.root_window
                (ButtonPressMask ||| ButtonReleaseMask ||| PointerMotionMask)],
            returned := none }
      else { state := s, calls := [], returned := none }
  | XEvent.MotionNotify x_root y_root =>
      if s.is_moving = true ∧ s.current_moving_window ≠ None then
        let new_x := s.start_win_x + (x_root - s.start_x)
        let new_y := s.start_win_y + (y_root - s.start_y)
        { state := s, calls := [Call.XMoveWindow s.current_moving_window new_x new_y],
          returned := none }
      else { state := s, calls := [], returned := none }
  | XEvent.ButtonRelease _ =>
      { state := { s with is_moving := false, current_moving_window := None },
        calls := [Call.XUngrabPointer] ++ tile_windows s.managed_windows r.root_attrs,
        returned := none }
  | XEvent.EnterNotify window _ =>
      if window ≠ cfg.root_window ∧ window ≠ s.focused_window then
        { state := { s with focused_window := window },
          calls :=
            (if s.focused_window ≠ None then set_window_border s.focused_window false else [])
            ++ [Call.XSetInputFocus window] ++ set_window_border window true,
          returned := none }
      else { state := s, calls := [], returned := none }
  | XEvent.KeyPress keycode state => key_press cfg r s keycode state
  | XEvent.other _ => { state := s, calls := [], returned := none }

/-- The manager together with the display-side view of what it has done. -/
structure World where
  wm : State
  display : Display
  returned : Option Int

/-- Program start: empty registry, no focus, idle; every border unfocused, no grab. -/
def World.initial : World :=
  { wm := State.initial,
    display :=
      { border := fun _ => unfocused_border_color, destroyed := fun _ => false,
        pointer_grabbed := false },
    returned := none }

/-- Deliver one event: nothing happens once `main` has returned. -/
def World.step (cfg : Session) (w : World) (input : Replies × XEvent) : World :=
  match w.returned with
  | some _ => w
  | none =>
      let o := dispatch cfg input.1 w.wm input.2
      { wm := o.state,
        display := o.calls.foldl Display.apply (w.display.observe input.2),
        returned := o.returned }

/-- Deliver a finite sequence of events, starting from program start. -/
def run (cfg : Session) (inputs : List (Replies × XEvent)) : World :=
  inputs.foldl (World.step cfg) World.initial

end Nothing

/-! ## yourmom.cpp -/

namespace Yourmom

def border_width : Int := 2

/-- The mutable globals of yourmom.cpp. -/
structure State where
  is_moving : Bool
  start_x : Int
  start_y : Int
  start_win_x : Int
  start_win_y : Int
  current_moving_window : Window
  managed_windows : List Window
  deriving DecidableEq, Repr

/-- The globals as initialised at program start. -/
def State.initial : State :=
  { is_moving := false, start_x := 0, start_y := 0, start_win_x := 0, start_win_y := 0,
    current_moving_window := None, managed_windows := [] }

/-- Result of one iteration of the event loop. -/
structure Outcome where
  state : State
  calls : List Call
  /-- the value returned from `main`, when the iteration executed `return` -/
  returned : Option Int

def execute_command (command_args : List String) : List Call :=
  [Call.execute_command command_args]

def close_window (cfg : Session) (r : Replies) (window : Window) : List Call :=
  match r.wm_protocols window with
  | some protocols =>
      if delete_supported_loop cfg.WM_DELETE_WINDOW protocols then
        [Call.XSendEvent window NoEventMask (delete_message cfg window)]
      else []
  | none => []

/-- The initialiser `const int stack_height = screen_height / (num_windows - 1);` -/
def stack_height (screen_height num_windows : Int) : Int :=
  screen_height.tdiv (num_windows - 1)

/-- The `for (int i = 1; i < num_windows; ++i)` loop of `tile_windows`, entered at
index `i` with the registry entries from index `i` on. -/
def stack_loop (master_width stack_width stack_height : Int) : Int → List Window → List Call
  | _, [] => []
  | i, w :: rest =>
      Call.XMoveResizeWindow w master_width ((i - 1) * stack_height)
          (unsigned_int (stack_width - 2 * border_width))
          (unsigned_int (stack_height - 2 * border_width))
        :: stack_loop master_width stack_width stack_height (i + 1) rest

def tile_windows (managed_windows : List Window) (root_attrs : XWindowAttributes) : List Call :=
  match managed_windows with
  | [] => []
  | w0 :: stack =>
      let num_windows : Int := ((w0 :: stack).length : Int)
      let screen_width := root_attrs.width
      let screen_height := root_attrs.height
      if num_windows = 1 then
        [Call.XMoveResizeWindow w0 0 0 (unsigned_int (screen_width - 2 * border_width))
          (unsigned_int (screen_height - 2 * border_width))]
      else
        let master_width := master_width screen_width
        let stack_width := screen_width - master_width
        let stack_height := stack_height screen_height num_windows
        Call.XMoveResizeWindow w0 0 0 (unsigned_int (master_width - 2 * border_width))
            (unsigned_int (screen_height - 2 * border_width))
          :: stack_loop master_width stack_width stack_height 1 stack

/-- The `case KeyPress:` chain of `main`. -/
def key_press (cfg : Session) (r : Replies) (s : State) (keycode : KeyCode) (state : Nat) :
    Outcome :=
  if keycode = cfg.key_enter_keycode ∧ state &&& Mod4Mask ≠ 0 then
    { state := s, calls := execute_command ["konsole"], returned := none }
  else if keycode = cfg.key_q_keycode ∧ state &&& Mod4Mask ≠ 0 then
    let focused_window := r.input_focus
    if focused_window ≠ None ∧ focused_window ≠ cfg.root_window then
      { state := s, calls := close_window cfg r focused_window, returned := none }
    else { state := s, calls := [], returned := none }
  else if keycode = cfg.key_a_keycode ∧ state &&& Mod4Mask ≠ 0 then
    { state := s, calls := execute_command ["wofi", "--show", "drun"], returned := none }
  else if keycode = cfg.key_e_keycode ∧ state &&& Mod4Mask ≠ 0 then
    { state := s, calls := execute_command ["dolphin"], returned := none }
  else if keycode = cfg.key_m_keycode ∧ state &&& Mod4Mask ≠ 0 then
    { state := s, calls := [Call.XCloseDisplay], returned := some 0 }
  else { state := s, calls := [], returned := none }

/-- One iteration of `while (true) { XNextEvent(...); switch (event.type) ... }`. -/
def dispatch (cfg : Session) (r : Replies) (s : State) : XEvent → Outcome
  | XEvent.CreateNotify window =>
      { state := s,
        calls :=
          [Call.XSelectInput window
              (StructureNotifyMask ||| ExposureMask ||| KeyPressMask ||| ButtonPressMask
                ||| EnterWindowMask),
            Call.XSetWindowBorderWidth window border_width,
            Call.XSetWindowBorder window Pixel.XWhitePixel],
        returned := none }
  | XEvent.MapRequest window =>
      let managed_windows := s.managed_windows ++ [window]
      { state := { s with managed_windows := managed_windows },
        calls := [Call.XMapWindow window] ++ tile_windows managed_windows r.root_attrs,
        returned := none }
  | XEvent.ConfigureRequest window x y width height border_width above detail value_mask =>
      { state := s,
        calls :=
          [Call.XConfigureWindow window value_mask
            { x := x, y := y, width := width, height := height, border_width := border_width,
              sibling := above, stack_mode := detail }],
        returned := none }
  | XEvent.DestroyNotify window =>
      let managed_windows := erase_first s.managed_windows window
      { state := { s with managed_windows := managed_windows },
        calls := tile_windows managed_windows r.root_attrs,
        returned := none }
  | XEvent.ButtonPress button subwindow x_root y_root =>
      if button = 1 then
        if subwindow = None then
          { state := { s with is_moving := false, current_moving_window := subwindow },
            calls := [], returned := none }
        else
          { state :=
              { s with
                is_moving := true,
                current_moving_window := subwindow,
                start_win_x := (r.win_attrs subwindow).x,
                start_win_y := (r.win_attrs subwindow).y,
                start_x := x_root,
                start_y := y_root },
            calls :=
              [Call.XGrabPointer cfg.root_window
                (ButtonPressMask ||| ButtonReleaseMask ||| PointerMotionMask)],
            returned := none }
      else { state := s, calls := [], returned := none }
  | XEvent.MotionNotify x_root y_root =>
      if s.is_moving = true ∧ s.current_moving_window ≠ None then
        let new_x := s.start_win_x + (x_root - s.start_x)
        let new_y := s.start_win_y + (y_root - s.start_y)
        { state := s, calls := [Call.XMoveWindow s.current_moving_window new_x new_y],
          returned := none }
      else { state := s, calls := [], returned := none }
  | XEvent.ButtonRelease _ =>
      { state := { s with is_moving := false, current_moving_window := None },
        calls := [Call.XUngrabPointer] ++ tile_windows s.managed_windows r.root_attrs,
        returned := none }
  | XEvent.EnterNotify window mode =>
      { state := s,
        calls := if mode = NotifyNormal then [Call.XSetInputFocus window] else [],
        returned := none }
  | XEvent.KeyPress keycode state => key_press cfg r s keycode state
  | _ => { state := s, calls := [], returned := none }

/-- Deliver one event to the loop; nothing happens once `main` has returned. -/
def step (cfg : Session) (w : State × Option Int) (input : Replies × XEvent) :
    State × Option Int :=
  match w.2 with
  | some _ => w
  | none =>
      let o := dispatch cfg input.1 w.1 input.2
      (o.state, o.returned)

/-- Deliver a finite sequence of events, starting from program start. -/
def run (cfg : Session) (inputs : List (Replies × XEvent)) : State × Option Int :=
  inputs.foldl (step cfg) (State.initial, none)

end Yourmom

/-! ## The geometry of the windows as left by the requests -/

abbrev CWX : Nat := 1
abbrev CWY : Nat := 2
abbrev CWWidth : Nat := 4
abbrev CWHeight : Nat := 8

/-- Effect of one request on the rectangle of each window: a move-resize sets the whole
rectangle, a move only the origin, a configure the fields named in its value mask. -/
def place (g : Window → XWindowAttributes) : Call → Window → XWindowAttributes
  | Call.XMoveResizeWindow w x y width height =>
      fun v => if v = w then { x := x, y := y, width := width, height := height } else g v
  | Call.XMoveWindow w x y =>
      fun v => if v = w then { x := x, y := y, width := (g v).width, height := (g v).height }
        else g v
  | Call.XConfigureWindow w value_mask changes =>
      fun v =>
        if v = w then
          { x := if value_mask &&& CWX ≠ 0 then changes.x else (g v).x,
            y := if value_mask &&& CWY ≠ 0 then changes.y else (g v).y,
            width := if value_mask &&& CWWidth ≠ 0 then changes.width else (g v).width,
            height := if value_mask &&& CWHeight ≠ 0 then changes.height else (g v).height }
        else g v
  | _ => g

/-- The rectangles after a sequence of requests, starting from the rectangles `g`. -/
def placement (calls : List Call) (g : Window → XWindowAttributes) :
    Window → XWindowAttributes :=
  calls.foldl place g

/-- The window whose position or size a request changes, if it is a geometry request. -/
def Call.geometry_window : Call → Option Window
  | Call.XMoveResizeWindow w _ _ _ _ => some w
  | Call.XMoveWindow w _ _ => some w
  | Call.XConfigureWindow w _ _ => some w
  | _ => none

/-! ## The layout in the words of the specification -/

/-- The rectangle that `compute_layout` of section 4.2 of the specification gives to the
window at index `i` of `N`: a single window takes the usable area less its border; with
two or more, index 0 (master) takes the left `master_ratio` fraction of the width and the
full usable height, and index i >= 1 is stacked on the right in the slot of height
`(screen_h - reserved_top) / (N - 1)` starting at `(i - 1)` slots below `reserved_top`;
the border is subtracted twice from both dimensions of every window. -/
def spec_compute_layout (reserved_top border_width screen_w screen_h : Int) (N i : Nat) :
    XWindowAttributes :=
  if N = 1 then
    { x := 0, y := reserved_top, width := screen_w - 2 * border_width,
      height := screen_h - reserved_top - 2 * border_width }
  else if i = 0 then
    { x := 0, y := reserved_top, width := master_width screen_w - 2 * border_width,
      height := screen_h - reserved_top - 2 * border_width }
  else
    { x := master_width screen_w,
      y := ((i : Int) - 1) * (screen_h - reserved_top).tdiv ((N : Int) - 1) + reserved_top,
      width := screen_w - master_width screen_w - 2 * border_width,
      height := (screen_h - reserved_top).tdiv ((N : Int) - 1) - 2 * border_width }

/-- A session with the usual keycodes of a pc105 keyboard. -/
def example_session : Session :=
  { root_window := 1, statusbar_window := 2, WM_PROTOCOLS := 300, WM_DELETE_WINDOW := 301,
    NET_WM_NAME := 302, key_enter_keycode := 36, key_a_keycode := 38, key_d_keycode := 40,
    key_e_keycode := 26, key_q_keycode := 24, key_m_keycode := 58 }

/-- Replies of a 1920x1080 display whose clients advertise no protocols. -/
def example_replies : Replies :=
  { root_attrs := { x := 0, y := 0, width := 1920, height := 1080 },
    win_attrs := fun _ => { x := 0, y := 0, width := 100, height := 100 },
    wm_protocols := fun _ => none,
    net_wm_name := none,
    input_focus := None }

/-- Replies of a 1920x1080 display whose clients advertise WM_TAKE_FOCUS-like atom 310 and
WM_DELETE_WINDOW (atom 301 of `example_session`), the latter twice. -/
def example_replies_delete : Replies :=
  { root_attrs := { x := 0, y := 0, width := 1920, height := 1080 },
    win_attrs := fun _ => { x := 0, y := 0, width := 100, height := 100 },
    wm_protocols := fun _ => some [310, 301, 301],
    net_wm_name := none,
    input_focus := None }

/-- A state of nothing.cpp in the middle of a drag of the managed window 7, grabbed at
pointer position (100, 100) when its origin was (1152, 20). -/
def example_drag_state : Nothing.State :=
  { is_moving := true, start_x := 100, start_y := 100, start_win_x := 1152, start_win_y := 20,
    current_moving_window := 7, managed_windows := [5, 7], focused_window := 7 }

/-! ## Lemmas on the binary32 model -/

theorem bit_length_from_zero (fuel : Nat) : bit_length_from fuel 0 = 0 := by
  cases fuel <;> simp [bit_length_from]

theorem bit_length_from_eq (e : Nat) :
    ∀ n fuel : Nat, 2 ^ e ≤ n → n < 2 ^ (e + 1) → e < fuel → bit_length_from fuel n = e + 1 := by
  induction e with
  | zero =>
    intro n fuel h1 h2 h3
    obtain ⟨f, rfl⟩ : ∃ f, fuel = f + 1 := ⟨fuel - 1, by omega⟩
    have hn : n = 1 := by omega
    subst hn
    simp [bit_length_from, bit_length_from_zero]
  | succ e ih =>
    intro n fuel h1 h2 h3
    obtain ⟨f, rfl⟩ : ∃ f, fuel = f + 1 := ⟨fuel - 1, by omega⟩
    have hpos : 0 < 2 ^ e := Nat.two_pow_pos e
    have hn : n ≠ 0 := by
      rw [pow_succ] at h1
      omega
    have ha : 2 ^ e ≤ n / 2 := by
      rw [pow_succ] at h1
      omega
    have hb : n / 2 < 2 ^ (e + 1) := by
      rw [pow_succ 2 (e + 1)] at h2
      omega
    simp [bit_length_from, hn, ih (n / 2) f ha hb (by omega)]

theorem bit_length_eq (e n : Nat) (h1 : 2 ^ e ≤ n) (h2 : n < 2 ^ (e + 1)) :
    bit_length n = e + 1 := by
  apply bit_length_from_eq e n n h1 h2
  exact lt_of_lt_of_le (Nat.lt_two_pow e) h1

theorem bit_length_from_le (fuel : Nat) :
    ∀ n e : Nat, n < 2 ^ e → bit_length_from fuel n ≤ e := by
  induction fuel with
  | zero => intro n e _; simp [bit_length_from]
  | succ f ih =>
    intro n e h
    unfold bit_length_from
    split
    · omega
    · next hn =>
      cases e with
      | zero => simp at h; omega
      | succ e =>
        have : n / 2 < 2 ^ e := by
          rw [pow_succ] at h
          omega
        have := ih (n / 2) e this
        omega

theorem float_round_exact (n : Nat) (h : n < 2 ^ 24) : float_round n = n := by
  have hk : bit_length n - 24 = 0 := by
    have := bit_length_from_le n n 24 h
    unfold bit_length
    omega
  simp [float_round, hk, round_to_even, Nat.mod_one]

theorem round_to_even_spec (k n : Nat) :
    ∃ j, round_to_even k n = j * 2 ^ k ∧ 2 * n ≤ 2 * (j * 2 ^ k) + 2 ^ k ∧
      2 * (j * 2 ^ k) ≤ 2 * n + 2 ^ k := by
  have hpos : 0 < 2 ^ k := Nat.two_pow_pos k
  have hdm := Nat.div_add_mod n (2 ^ k)
  have hr := Nat.mod_lt n hpos
  have hcomm : 2 ^ k * (n / 2 ^ k) = n / 2 ^ k * 2 ^ k := Nat.mul_comm _ _
  have hsucc : (n / 2 ^ k + 1) * 2 ^ k = n / 2 ^ k * 2 ^ k + 2 ^ k := by ring
  simp only [round_to_even]
  split_ifs
  · exact ⟨n / 2 ^ k, rfl, by omega, by omega⟩
  · exact ⟨n / 2 ^ k + 1, rfl, by omega, by omega⟩
  · exact ⟨n / 2 ^ k, rfl, by omega, by omega⟩
  · exact ⟨n / 2 ^ k + 1, rfl, by omega, by omega⟩

theorem master_width_product (n : Nat) (h : n ≤ 65535) :
    float_round (n * master_ratio) / 2 ^ 24 = 3 * n / 5 := by
  have hk : bit_length (n * master_ratio) - 24 ≤ 16 := by
    have hlt : n * master_ratio < 2 ^ 40 := by
      unfold master_ratio
      norm_num
      omega
    have := bit_length_from_le (n * master_ratio) (n * master_ratio) 40 hlt
    unfold bit_length
    omega
  obtain ⟨j, hj, hlo, hhi⟩ := round_to_even_spec (bit_length (n * master_ratio) - 24)
    (n * master_ratio)
  rw [float_round, hj]
  generalize bit_length (n * master_ratio) - 24 = k at hk hj hlo hhi ⊢
  have hc : 2 ^ k ≤ 65536 := by
    have := Nat.pow_le_pow_right (by decide : 0 < 2) hk
    norm_num at this
    exact this
  obtain ⟨d, hd⟩ : 2 ^ k ∣ 2 ^ 24 := pow_dvd_pow 2 (by omega)
  generalize 2 ^ k = c at hj hlo hhi hc hd ⊢
  have hd24 : c * d = 16777216 := by
    rw [← hd]
    norm_num
  unfold master_ratio at hlo hhi
  have hlow : c * (d * (3 * n / 5)) ≤ c * j := by
    have e1 : c * (2 * (d * (3 * n / 5))) = 2 * (c * d * (3 * n / 5)) := by ring
    have e2 : c * (2 * j + 1) = 2 * (j * c) + c := by ring
    have e3 : c * (2 * (d * (3 * n / 5))) ≤ c * (2 * j + 1) := by
      rw [e1, e2, hd24]
      omega
    have hcpos : 0 < c := by
      rcases Nat.eq_zero_or_pos c with h0 | h0
      · rw [h0] at hd24
        omega
      · exact h0
    have e4 := Nat.le_of_mul_le_mul_left e3 hcpos
    exact Nat.mul_le_mul_left c (by omega)
  have e5 : c * (d * (3 * n / 5)) = 16777216 * (3 * n / 5) := by
    rw [← Nat.mul_assoc, hd24]
  have e6 : c * j = j * c := Nat.mul_comm _ _
  norm_num
  omega

theorem master_width_eq (screen_width : Int) (h0 : 0 ≤ screen_width)
    (h1 : screen_width ≤ 65535) : master_width screen_width = 3 * screen_width / 5 := by
  obtain ⟨n, rfl⟩ := Int.eq_ofNat_of_zero_le h0
  have hn : n ≤ 65535 := by omega
  have hlt : ¬ ((n : Int) < 0) := by omega
  have hex : float_round n = n := float_round_exact n (by norm_num; omega)
  simp only [master_width, Int.natAbs_ofNat, hex, hlt, if_false, master_width_product n hn]
  omega


/-! ## Lemmas on the conversion to `unsigned int` and on truncating division -/

theorem unsigned_int_of_nonneg (v : Int) (h0 : 0 ≤ v) (h1 : v ≤ 2147483647) :
    unsigned_int v = v := by
  unfold unsigned_int
  omega

theorem unsigned_int_pos_iff (v : Int) (h0 : -4294967296 < v) (h1 : v < 4294967296) :
    0 < unsigned_int v ↔ v ≠ 0 := by
  unfold unsigned_int
  omega

theorem unsigned_int_int_range_iff (v : Int) (h0 : -2147483648 ≤ v) (h1 : v ≤ 2147483647) :
    (0 < unsigned_int v ∧ unsigned_int v ≤ 2147483647) ↔ 0 < v := by
  unfold unsigned_int
  omega

theorem tdiv_bounds (a n : Int) (hn : 1 ≤ n) :
    (0 ≤ a → 0 ≤ a.tdiv n ∧ a.tdiv n ≤ a) ∧ (a ≤ 0 → a ≤ a.tdiv n ∧ a.tdiv n ≤ 0) := by
  have hpos : ∀ c : Int, 0 ≤ c → 0 ≤ c.tdiv n ∧ c.tdiv n ≤ c := by
    intro c hc
    rw [Int.tdiv_eq_ediv hc (by omega)]
    exact ⟨Int.ediv_nonneg hc (by omega), Int.ediv_le_self n hc⟩
  refine ⟨hpos a, ?_⟩
  intro ha
  have h := hpos (-a) (by omega)
  rw [Int.neg_tdiv] at h
  omega

/-! ## Lemmas on the tiling loop -/

theorem nothing_stack_loop_length (mw sw sh : Int) :
    ∀ (rest : List Window) (start : Int),
      (Nothing.stack_loop mw sw sh start rest).length = rest.length := by
  intro rest
  induction rest with
  | nil => intro start; rfl
  | cons w rest ih => intro start; simp [Nothing.stack_loop, ih]

theorem nothing_stack_loop_getElem (mw sw sh : Int) :
    ∀ (rest : List Window) (start : Int) (i : Nat) (hi : i < rest.length),
      (Nothing.stack_loop mw sw sh start rest)[i]? =
        some (Call.XMoveResizeWindow (rest.get ⟨i, hi⟩) mw
          ((start + (i : Int) - 1) * sh + Nothing.statusbar_height)
          (unsigned_int (sw - 2 * Nothing.border_width))
          (unsigned_int (sh - 2 * Nothing.border_width))) := by
  intro rest
  induction rest with
  | nil => intro start i hi; simp at hi
  | cons w rest ih =>
    intro start i hi
    cases i with
    | zero => simp [Nothing.stack_loop]
    | succ i =>
      simp only [Nothing.stack_loop, List.getElem?_cons_succ, List.get_eq_getElem,
        List.getElem_cons_succ]
      rw [ih (start + 1) i (by simpa using hi)]
      simp only [List.get_eq_getElem, Nat.cast_add, Nat.cast_one]
      congr 3
      ring

theorem yourmom_stack_loop_getElem (mw sw sh : Int) :
    ∀ (rest : List Window) (start : Int) (i : Nat) (hi : i < rest.length),
      (Yourmom.stack_loop mw sw sh start rest)[i]? =
        some (Call.XMoveResizeWindow (rest.get ⟨i, hi⟩) mw ((start + (i : Int) - 1) * sh)
          (unsigned_int (sw - 2 * Yourmom.border_width))
          (unsigned_int (sh - 2 * Yourmom.border_width))) := by
  intro rest
  induction rest with
  | nil => intro start i hi; simp at hi
  | cons w rest ih =>
    intro start i hi
    cases i with
    | zero => simp [Yourmom.stack_loop]
    | succ i =>
      simp only [Yourmom.stack_loop, List.getElem?_cons_succ, List.get_eq_getElem,
        List.getElem_cons_succ]
      rw [ih (start + 1) i (by simpa using hi)]
      simp only [List.get_eq_getElem, Nat.cast_add, Nat.cast_one]
      congr 3
      ring

theorem nothing_tile_windows_stack (managed_windows : List Window)
    (root_attrs : XWindowAttributes) (hN : 2 ≤ managed_windows.length) (i : Nat)
    (hi : i < managed_windows.length) (h1 : 1 ≤ i) :
    (Nothing.tile_windows managed_windows root_attrs)[i]? = some
      (Call.XMoveResizeWindow (managed_windows.get ⟨i, hi⟩) (master_width root_attrs.width)
        (((i : Int) - 1) * Nothing.stack_height root_attrs.height managed_windows.length
          + Nothing.statusbar_height)
        (unsigned_int
          (root_attrs.width - master_width root_attrs.width - 2 * Nothing.border_width))
        (unsigned_int (Nothing.stack_height root_attrs.height managed_windows.length
          - 2 * Nothing.border_width))) := by
  cases managed_windows with
  | nil => simp at hN
  | cons w0 stack =>
    have hne : ¬ (((w0 :: stack).length : Int) = 1) := by
      simp only [List.length_cons] at hN ⊢
      omega
    obtain ⟨j, rfl⟩ : ∃ j, i = j + 1 := ⟨i - 1, by omega⟩
    have hj : j < stack.length := by simpa using hi
    simp only [Nothing.tile_windows]
    rw [if_neg hne]
    simp only [List.getElem?_cons_succ]
    rw [nothing_stack_loop_getElem _ _ _ stack 1 j hj]
    simp

theorem yourmom_tile_windows_stack (managed_windows : List Window)
    (root_attrs : XWindowAttributes) (hN : 2 ≤ managed_windows.length) (i : Nat)
    (hi : i < managed_windows.length) (h1 : 1 ≤ i) :
    (Yourmom.tile_windows managed_windows root_attrs)[i]? = some
      (Call.XMoveResizeWindow (managed_windows.get ⟨i, hi⟩) (master_width root_attrs.width)
        (((i : Int) - 1) * Yourmom.stack_height root_attrs.height managed_windows.length)
        (unsigned_int
          (root_attrs.width - master_width root_attrs.width - 2 * Yourmom.border_width))
        (unsigned_int (Yourmom.stack_height root_attrs.height managed_windows.length
          - 2 * Yourmom.border_width))) := by
  cases managed_windows with
  | nil => simp at hN
  | cons w0 stack =>
    have hne : ¬ (((w0 :: stack).length : Int) = 1) := by
      simp only [List.length_cons] at hN ⊢
      omega
    obtain ⟨j, rfl⟩ : ∃ j, i = j + 1 := ⟨i - 1, by omega⟩
    have hj : j < stack.length := by simpa using hi
    simp only [Yourmom.tile_windows]
    rw [if_neg hne]
    simp only [List.getElem?_cons_succ]
    rw [yourmom_stack_loop_getElem _ _ _ stack 1 j hj]
    simp

theorem tdiv_leftover (a n : Int) (ha : 0 ≤ a) (hn : 1 ≤ n) :
    0 ≤ a - n * a.tdiv n ∧ a - n * a.tdiv n ≤ n - 1 := by
  rw [Int.tdiv_eq_ediv ha (by omega)]
  have h1 := Int.emod_nonneg a (by omega : n ≠ 0)
  have h2 := Int.emod_lt_of_pos a (by omega : 0 < n)
  have h3 := Int.emod_def a n
  constructor <;> omega

/-! ## Lemmas relating `tile_windows` to the layout of the specification -/

theorem nothing_tile_windows_length (managed_windows : List Window)
    (root_attrs : XWindowAttributes) :
    (Nothing.tile_windows managed_windows root_attrs).length = managed_windows.length := by
  cases managed_windows with
  | nil => rfl
  | cons w0 stack =>
    simp only [Nothing.tile_windows]
    split
    · next hone =>
      simp only [List.length_cons, Nat.cast_add, Nat.cast_one] at hone
      simp only [List.length_cons, List.length_nil]
      omega
    · simp [nothing_stack_loop_length]

/-- The request of `tile_windows` of nothing.cpp at index i is the move-resize of the window
at index i to the rectangle of the specification with reserved_top 20 and border 2, the
width and height converted to `unsigned int`. -/
theorem nothing_tile_windows_layout (managed_windows : List Window)
    (root_attrs : XWindowAttributes) (i : Nat) (hi : i < managed_windows.length) :
    (Nothing.tile_windows managed_windows root_attrs)[i]? = some
      (Call.XMoveResizeWindow (managed_windows.get ⟨i, hi⟩)
        (spec_compute_layout 20 2 root_attrs.width root_attrs.height
          managed_windows.length i).x
        (spec_compute_layout 20 2 root_attrs.width root_attrs.height
          managed_windows.length i).y
        (unsigned_int (spec_compute_layout 20 2 root_attrs.width root_attrs.height
          managed_windows.length i).width)
        (unsigned_int (spec_compute_layout 20 2 root_attrs.width root_attrs.height
          managed_windows.length i).height)) := by
  by_cases hone : managed_windows.length = 1
  · obtain ⟨w, rfl⟩ := List.length_eq_one.1 hone
    have hi0 : i = 0 := by simpa using hi
    subst hi0
    simp [Nothing.tile_windows, spec_compute_layout, Nothing.statusbar_height,
      Nothing.border_width]
  · have hN : 2 ≤ managed_windows.length := by omega
    by_cases hi0 : i = 0
    · subst hi0
      cases managed_windows with
      | nil => simp at hi
      | cons w0 stack =>
        have hne : ¬ (((w0 :: stack).length : Int) = 1) := by
          simp only [List.length_cons] at hN ⊢
          omega
        have hstack : stack ≠ [] := by
          intro e
          rw [e] at hone
          exact hone rfl
        simp only [Nothing.tile_windows]
        rw [if_neg hne]
        simp [spec_compute_layout, hstack, Nothing.statusbar_height, Nothing.border_width]
    · rw [nothing_tile_windows_stack managed_windows root_attrs hN i hi (by omega)]
      simp [spec_compute_layout, hone, hi0, Nothing.stack_height, Nothing.statusbar_height,
        Nothing.border_width]

/-- C1 as stated fails: on a 1920x26 screen with three windows the slot height is
(26 - 20) / 2 = 3, and the request for the first stack window does not carry the height
3 - 4 = -1 of the claim but its conversion to `unsigned int`, 4294967295. -/
theorem nothing_tile_windows_rectangles_counterexample :
    (Nothing.tile_windows [5, 6, 7] { x := 0, y := 0, width := 1920, height := 26 })[1]? ≠
        some (Call.XMoveResizeWindow 6 (3 * 1920 / 5)
          (((1 : Int) - 1) * ((26 : Int) - 20).tdiv (3 - 1) + 20)
          (1920 - 3 * 1920 / 5 - 2 * 2) (((26 : Int) - 20).tdiv (3 - 1) - 2 * 2)) ∧
      Nothing.tile_windows [5, 6, 7] { x := 0, y := 0, width := 1920, height := 26 } =
        [Call.XMoveResizeWindow 5 0 20 1148 2, Call.XMoveResizeWindow 6 1152 20 764 4294967295,
          Call.XMoveResizeWindow 7 1152 23 764 4294967295] := by
  decide

/-- C1 (amended): in nothing.cpp, for a registry of N >= 2 windows and a screen of width W
in 0..65535 and height H, `tile_windows` issues exactly N requests, the one at index i
being the move-resize of the window at index i: index 0 gets
(0, 20, floor(3W/5) - 4, H - 20 - 4) and index i >= 1 gets
(floor(3W/5), (i-1)*sh + 20, W - floor(3W/5) - 4, sh - 4) with
sh = (H - 20) / (N - 1) truncated, each width and height converted to `unsigned int`
(modulo 2^32); when floor(3W/5) >= 4, W - floor(3W/5) >= 4, sh >= 4 and H <= 2147483647
the widths and heights passed are these values themselves. -/
theorem nothing_tile_windows_rectangles (managed_windows : List Window)
    (root_attrs : XWindowAttributes) (hN : 2 ≤ managed_windows.length)
    (hW0 : 0 ≤ root_attrs.width) (hW1 : root_attrs.width ≤ 65535) :
    (Nothing.tile_windows managed_windows root_attrs).length = managed_windows.length ∧
    (∀ (i : Nat) (hi : i < managed_windows.length),
      (Nothing.tile_windows managed_windows root_attrs)[i]? = some
        (if i = 0 then
          Call.XMoveResizeWindow (managed_windows.get ⟨i, hi⟩) 0 20
            (unsigned_int (3 * root_attrs.width / 5 - 2 * 2))
            (unsigned_int (root_attrs.height - 20 - 2 * 2))
        else
          Call.XMoveResizeWindow (managed_windows.get ⟨i, hi⟩) (3 * root_attrs.width / 5)
            (((i : Int) - 1) *
              (root_attrs.height - 20).tdiv ((managed_windows.length : Int) - 1) + 20)
            (unsigned_int (root_attrs.width - 3 * root_attrs.width / 5 - 2 * 2))
            (unsigned_int
              ((root_attrs.height - 20).tdiv ((managed_windows.length : Int) - 1) - 2 * 2)))) ∧
    (2 * 2 ≤ 3 * root_attrs.width / 5 → 2 * 2 ≤ root_attrs.width - 3 * root_attrs.width / 5 →
      2 * 2 ≤ (root_attrs.height - 20).tdiv ((managed_windows.length : Int) - 1) →
      root_attrs.height ≤ 2147483647 →
      ∀ (i : Nat) (hi : i < managed_windows.length),
        (Nothing.tile_windows managed_windows root_attrs)[i]? = some
          (if i = 0 then
            Call.XMoveResizeWindow (managed_windows.get ⟨i, hi⟩) 0 20
              (3 * root_attrs.width / 5 - 2 * 2) (root_attrs.height - 20 - 2 * 2)
          else
            Call.XMoveResizeWindow (managed_windows.get ⟨i, hi⟩) (3 * root_attrs.width / 5)
              (((i : Int) - 1) *
                (root_attrs.height - 20).tdiv ((managed_windows.length : Int) - 1) + 20)
              (root_attrs.width - 3 * root_attrs.width / 5 - 2 * 2)
              ((root_attrs.height - 20).tdiv ((managed_windows.length : Int) - 1) - 2 * 2))) := by
  have hrect : ∀ (i : Nat) (hi : i < managed_windows.length),
      (Nothing.tile_windows managed_windows root_attrs)[i]? = some
        (if i = 0 then
          Call.XMoveResizeWindow (managed_windows.get ⟨i, hi⟩) 0 20
            (unsigned_int (3 * root_attrs.width / 5 - 2 * 2))
            (unsigned_int (root_attrs.height - 20 - 2 * 2))
        else
          Call.XMoveResizeWindow (managed_windows.get ⟨i, hi⟩) (3 * root_attrs.width / 5)
            (((i : Int) - 1) *
              (root_attrs.height - 20).tdiv ((managed_windows.length : Int) - 1) + 20)
            (unsigned_int (root_attrs.width - 3 * root_attrs.width / 5 - 2 * 2))
            (unsigned_int
              ((root_attrs.height - 20).tdiv ((managed_windows.length : Int) - 1) - 2 * 2))) := by
    intro i hi
    have hlay := nothing_tile_windows_layout managed_windows root_attrs i hi
    have hone : managed_windows.length ≠ 1 := by omega
    have hmw := master_width_eq root_attrs.width hW0 hW1
    rw [hlay]
    by_cases hi0 : i = 0
    · simp [spec_compute_layout, hone, hi0, hmw]
    · simp [spec_compute_layout, hone, hi0, hmw]
  refine ⟨nothing_tile_windows_length managed_windows root_attrs, hrect, ?_⟩
  intro h1 h2 h3 h4 i hi
  have hn : (1 : Int) ≤ (managed_windows.length : Int) - 1 := by omega
  have hb := tdiv_bounds (root_attrs.height - 20) ((managed_windows.length : Int) - 1) hn
  have hH : 0 ≤ root_attrs.height - 20 := by
    by_contra hneg
    have := (hb.2 (by omega)).2
    omega
  have hsh := (hb.1 hH).2
  rw [hrect i hi, unsigned_int_of_nonneg _ (by omega : 0 ≤ 3 * root_attrs.width / 5 - 2 * 2)
      (by omega),
    unsigned_int_of_nonneg _ (by omega : 0 ≤ root_attrs.height - 20 - 2 * 2) (by omega),
    unsigned_int_of_nonneg _
      (by omega : 0 ≤ root_attrs.width - 3 * root_attrs.width / 5 - 2 * 2) (by omega),
    unsigned_int_of_nonneg _
      (by omega : 0 ≤ (root_attrs.height - 20).tdiv ((managed_windows.length : Int) - 1)
        - 2 * 2) (by omega)]

/-- Instance of C1 on a 1280x1024 screen with three windows: the conditions on the sizes
hold and the request for the last window carries (768, 522, 508, 498). -/
theorem nothing_tile_windows_rectangles_witness :
    (Nothing.tile_windows [11, 12, 13] { x := 0, y := 0, width := 1280, height := 1024 })[2]? =
      some (Call.XMoveResizeWindow 13 768 522 508 498) :=
  (nothing_tile_windows_rectangles [11, 12, 13] { x := 0, y := 0, width := 1280, height := 1024 }
    (by decide) (by decide) (by decide)).2.2 (by decide) (by decide) (by decide) (by decide)
    2 (by decide)

/-- C2 as stated fails for a screen smaller than the reserved strip and the borders: on a
1920x20 screen the single window of nothing.cpp is not given the height 20 - 20 - 4 = -4
but 4294967292, and on a 1920x3 screen that of yourmom.cpp is given the height
4294967295. -/
theorem tile_windows_single_counterexample :
    Nothing.tile_windows [5] { x := 0, y := 0, width := 1920, height := 20 } ≠
        [Call.XMoveResizeWindow 5 0 20 (1920 - 2 * 2) (20 - 20 - 2 * 2)] ∧
      Nothing.tile_windows [5] { x := 0, y := 0, width := 1920, height := 20 } =
        [Call.XMoveResizeWindow 5 0 20 1916 4294967292] ∧
      Yourmom.tile_windows [5] { x := 0, y := 0, width := 1920, height := 3 } ≠
        [Call.XMoveResizeWindow 5 0 0 (1920 - 2 * 2) (3 - 0 - 2 * 2)] ∧
      Yourmom.tile_windows [5] { x := 0, y := 0, width := 1920, height := 3 } =
        [Call.XMoveResizeWindow 5 0 0 1916 4294967295] := by
  decide

/-- C2 (amended): with exactly one window in the registry, `tile_windows` issues the single
request move-resize (0, reserved_top, W - 2*border_width, H - reserved_top - 2*border_width)
with the width and height converted to `unsigned int` (modulo 2^32); on a screen with
2*border_width <= W <= 2147483647 and reserved_top + 2*border_width <= H <= 2147483647
the width and height passed are these values themselves.  reserved_top is the status bar
height 20 in nothing.cpp and 0 in yourmom.cpp, where a 1920x1080 screen gives
(0, 0, 1916, 1076). -/
theorem tile_windows_single (w : Window) (root_attrs : XWindowAttributes) :
    Nothing.tile_windows [w] root_attrs =
        [Call.XMoveResizeWindow w 0 20
          (unsigned_int (root_attrs.width - 2 * Nothing.border_width))
          (unsigned_int (root_attrs.height - 20 - 2 * Nothing.border_width))] ∧
      Yourmom.tile_windows [w] root_attrs =
        [Call.XMoveResizeWindow w 0 0
          (unsigned_int (root_attrs.width - 2 * Yourmom.border_width))
          (unsigned_int (root_attrs.height - 0 - 2 * Yourmom.border_width))] ∧
      (2 * Nothing.border_width ≤ root_attrs.width → root_attrs.width ≤ 2147483647 →
        20 + 2 * Nothing.border_width ≤ root_attrs.height → root_attrs.height ≤ 2147483647 →
        Nothing.tile_windows [w] root_attrs =
          [Call.XMoveResizeWindow w 0 20 (root_attrs.width - 2 * Nothing.border_width)
            (root_attrs.height - 20 - 2 * Nothing.border_width)]) ∧
      (2 * Yourmom.border_width ≤ root_attrs.width → root_attrs.width ≤ 2147483647 →
        0 + 2 * Yourmom.border_width ≤ root_attrs.height → root_attrs.height ≤ 2147483647 →
        Yourmom.tile_windows [w] root_attrs =
          [Call.XMoveResizeWindow w 0 0 (root_attrs.width - 2 * Yourmom.border_width)
            (root_attrs.height - 0 - 2 * Yourmom.border_width)]) ∧
      Yourmom.border_width = 2 ∧ Nothing.border_width = 2 ∧
      Yourmom.tile_windows [w] { x := 0, y := 0, width := 1920, height := 1080 } =
        [Call.XMoveResizeWindow w 0 0 1916 1076] := by
  have hn : Nothing.tile_windows [w] root_attrs =
      [Call.XMoveResizeWindow w 0 20
        (unsigned_int (root_attrs.width - 2 * Nothing.border_width))
        (unsigned_int (root_attrs.height - 20 - 2 * Nothing.border_width))] := by
    simp [Nothing.tile_windows, Nothing.statusbar_height]
  have hy : Yourmom.tile_windows [w] root_attrs =
      [Call.XMoveResizeWindow w 0 0
        (unsigned_int (root_attrs.width - 2 * Yourmom.border_width))
        (unsigned_int (root_attrs.height - 0 - 2 * Yourmom.border_width))] := by
    simp [Yourmom.tile_windows]
  refine ⟨hn, hy, ?_, ?_, rfl, rfl, ?_⟩
  · intro h1 h2 h3 h4
    simp only [Nothing.border_width] at h1 h3
    rw [hn, unsigned_int_of_nonneg _
        (by simp only [Nothing.border_width]; omega)
        (by simp only [Nothing.border_width]; omega),
      unsigned_int_of_nonneg _
        (by simp only [Nothing.border_width]; omega)
        (by simp only [Nothing.border_width]; omega)]
  · intro h1 h2 h3 h4
    simp only [Yourmom.border_width] at h1 h3
    rw [hy, unsigned_int_of_nonneg _
        (by simp only [Yourmom.border_width]; omega)
        (by simp only [Yourmom.border_width]; omega),
      unsigned_int_of_nonneg _
        (by simp only [Yourmom.border_width]; omega)
        (by simp only [Yourmom.border_width]; omega)]
  · rw [show Yourmom.tile_windows [w] { x := 0, y := 0, width := 1920, height := 1080 } =
        [Call.XMoveResizeWindow w 0 0
          (unsigned_int ((1920 : Int) - 2 * Yourmom.border_width))
          (unsigned_int ((1080 : Int) - 2 * Yourmom.border_width))] from by
      simp [Yourmom.tile_windows]]
    have h1 : unsigned_int ((1920 : Int) - 2 * Yourmom.border_width) = 1916 := by decide
    have h2 : unsigned_int ((1080 : Int) - 2 * Yourmom.border_width) = 1076 := by decide
    rw [h1, h2]

/-- C3 as stated fails: on a 1200x800 screen the stack windows of yourmom.cpp are not
given height 400; the request for the first stack window carries height 396. -/
theorem yourmom_tile_three_counterexample :
    Yourmom.tile_windows [1, 2, 3] { x := 0, y := 0, width := 1200, height := 800 } ≠
        [Call.XMoveResizeWindow 1 0 0 716 796, Call.XMoveResizeWindow 2 720 0 476 400,
          Call.XMoveResizeWindow 3 720 400 476 400] ∧
      (Yourmom.tile_windows [1, 2, 3] { x := 0, y := 0, width := 1200, height := 800 })[1]? =
        some (Call.XMoveResizeWindow 2 720 0 476 396) := by
  decide

/-- C3 (amended): for three windows on a 1200x800 screen, `tile_windows` of yourmom.cpp
gives the master (0, 0, 716, 796) and the two stack windows x = 720, width 476 and
height 396 (the 400 pixel slot less twice the border), at y = 0 and y = 400. -/
theorem yourmom_tile_three (a b c : Window) (x y : Int) :
    Yourmom.tile_windows [a, b, c] { x := x, y := y, width := 1200, height := 800 } =
      [Call.XMoveResizeWindow a 0 0 716 796, Call.XMoveResizeWindow b 720 0 476 396,
        Call.XMoveResizeWindow c 720 400 476 396] := by
  have hmw : master_width 1200 = 720 := by decide
  simp [Yourmom.tile_windows, Yourmom.stack_loop, Yourmom.stack_height, Yourmom.border_width,
    hmw]
  decide

/-- C4: for a registry of N >= 2 windows and a screen height H with H - reserved_top >= 0,
the stack slot i (1 <= i <= N-1) requested by `tile_windows` starts at
y = (i-1)*sh + reserved_top with sh = (H - reserved_top) / (N - 1), and the slots leave
between 0 and N-2 pixels at the bottom: 0 <= (H - reserved_top) - (N-1)*sh <= N-2
(reserved_top = 20 in nothing.cpp, 0 in yourmom.cpp). -/
theorem stack_slots_leftover (managed_windows : List Window) (root_attrs : XWindowAttributes)
    (hN : 2 ≤ managed_windows.length) :
    (0 ≤ root_attrs.height - 20 →
      (∀ (i : Nat) (hi : i < managed_windows.length), 1 ≤ i →
        (Nothing.tile_windows managed_windows root_attrs)[i]? = some
          (Call.XMoveResizeWindow (managed_windows.get ⟨i, hi⟩) (master_width root_attrs.width)
            (((i : Int) - 1) * Nothing.stack_height root_attrs.height managed_windows.length
              + 20)
            (unsigned_int
              (root_attrs.width - master_width root_attrs.width - 2 * Nothing.border_width))
            (unsigned_int (Nothing.stack_height root_attrs.height managed_windows.length
              - 2 * Nothing.border_width)))) ∧
      Nothing.stack_height root_attrs.height managed_windows.length =
        (root_attrs.height - 20).tdiv ((managed_windows.length : Int) - 1) ∧
      0 ≤ (root_attrs.height - 20) - ((managed_windows.length : Int) - 1) *
            Nothing.stack_height root_attrs.height managed_windows.length ∧
      (root_attrs.height - 20) - ((managed_windows.length : Int) - 1) *
            Nothing.stack_height root_attrs.height managed_windows.length
        ≤ (managed_windows.length : Int) - 2) ∧
    (0 ≤ root_attrs.height →
      (∀ (i : Nat) (hi : i < managed_windows.length), 1 ≤ i →
        (Yourmom.tile_windows managed_windows root_attrs)[i]? = some
          (Call.XMoveResizeWindow (managed_windows.get ⟨i, hi⟩) (master_width root_attrs.width)
            (((i : Int) - 1) * Yourmom.stack_height root_attrs.height managed_windows.length)
            (unsigned_int
              (root_attrs.width - master_width root_attrs.width - 2 * Yourmom.border_width))
            (unsigned_int (Yourmom.stack_height root_attrs.height managed_windows.length
              - 2 * Yourmom.border_width)))) ∧
      Yourmom.stack_height root_attrs.height managed_windows.length =
        root_attrs.height.tdiv ((managed_windows.length : Int) - 1) ∧
      0 ≤ root_attrs.height - ((managed_windows.length : Int) - 1) *
            Yourmom.stack_height root_attrs.height managed_windows.length ∧
      root_attrs.height - ((managed_windows.length : Int) - 1) *
            Yourmom.stack_height root_attrs.height managed_windows.length
        ≤ (managed_windows.length : Int) - 2) := by
  have hn : (1 : Int) ≤ (managed_windows.length : Int) - 1 := by omega
  constructor
  · intro hH
    have hb := tdiv_leftover (root_attrs.height - 20) ((managed_windows.length : Int) - 1) hH hn
    refine ⟨?_, rfl, ?_, ?_⟩
    · intro i hi h1
      exact nothing_tile_windows_stack managed_windows root_attrs hN i hi h1
    · simpa [Nothing.stack_height, Nothing.statusbar_height] using hb.1
    · have := hb.2
      simp only [Nothing.stack_height, Nothing.statusbar_height]
      omega
  · intro hH
    have hb := tdiv_leftover root_attrs.height ((managed_windows.length : Int) - 1) hH hn
    refine ⟨?_, rfl, ?_, ?_⟩
    · intro i hi h1
      exact yourmom_tile_windows_stack managed_windows root_attrs hN i hi h1
    · simpa [Yourmom.stack_height] using hb.1
    · have := hb.2
      simp only [Yourmom.stack_height]
      omega

/-- Instance of C4: four windows on a screen of height 1081; both variants satisfy the
hypotheses and the bounds 0 <= leftover <= 2. -/
theorem stack_slots_leftover_witness :
    (0 ≤ ((1081 : Int) - 20) - ((([1, 2, 3, 4] : List Window).length : Int) - 1) *
          Nothing.stack_height 1081 (([1, 2, 3, 4] : List Window).length : Int) ∧
      ((1081 : Int) - 20) - ((([1, 2, 3, 4] : List Window).length : Int) - 1) *
          Nothing.stack_height 1081 (([1, 2, 3, 4] : List Window).length : Int)
        ≤ (([1, 2, 3, 4] : List Window).length : Int) - 2) ∧
    (0 ≤ (1081 : Int) - ((([1, 2, 3, 4] : List Window).length : Int) - 1) *
          Yourmom.stack_height 1081 (([1, 2, 3, 4] : List Window).length : Int) ∧
      (1081 : Int) - ((([1, 2, 3, 4] : List Window).length : Int) - 1) *
          Yourmom.stack_height 1081 (([1, 2, 3, 4] : List Window).length : Int)
        ≤ (([1, 2, 3, 4] : List Window).length : Int) - 2) :=
  ⟨((stack_slots_leftover [1, 2, 3, 4] { x := 0, y := 0, width := 1920, height := 1081 }
      (by decide)).1 (by decide)).2.2,
    ((stack_slots_leftover [1, 2, 3, 4] { x := 0, y := 0, width := 1920, height := 1081 }
      (by decide)).2 (by decide)).2.2⟩

/-! ## Lemmas on the registry and the event loop -/

theorem find_is_end_iff (v : List Window) (value : Window) :
    find_is_end v value = true ↔ value ∉ v := by
  induction v with
  | nil => simp [find_is_end]
  | cons x rest ih =>
    by_cases hx : x = value
    · simp [find_is_end, hx]
    · have hx2 : ¬ value = x := fun h => hx h.symm
      simp [find_is_end, hx, hx2, ih]

theorem erase_remove_eq_filter (v : List Window) (value : Window) :
    erase_remove v value = v.filter (fun x => decide (x ≠ value)) := by
  induction v with
  | nil => rfl
  | cons x rest ih =>
    by_cases hx : x = value
    · simp [erase_remove, hx, ih]
    · simp [erase_remove, hx, ih]

theorem mem_erase_remove (v : List Window) (value x : Window) :
    x ∈ erase_remove v value ↔ x ∈ v ∧ x ≠ value := by
  simp [erase_remove_eq_filter]

theorem erase_remove_sublist (v : List Window) (value : Window) :
    (erase_remove v value).Sublist v := by
  rw [erase_remove_eq_filter]
  exact List.filter_sublist v

theorem erase_remove_of_not_mem (v : List Window) (value : Window) (h : value ∉ v) :
    erase_remove v value = v := by
  rw [erase_remove_eq_filter, List.filter_eq_self]
  intro x hx
  have : x ≠ value := fun e => h (e ▸ hx)
  simpa using this

/-- The registry after one iteration of the loop of nothing.cpp. -/
theorem nothing_dispatch_managed_windows (cfg : Session) (r : Replies) (s : Nothing.State)
    (e : XEvent) :
    (Nothing.dispatch cfg r s e).state.managed_windows =
      match e with
      | XEvent.MapRequest window =>
          if find_is_end s.managed_windows window then s.managed_windows ++ [window]
          else s.managed_windows
      | XEvent.DestroyNotify window => erase_remove s.managed_windows window
      | _ => s.managed_windows := by
  cases e <;> simp only [Nothing.dispatch, Nothing.key_press] <;> (repeat' split) <;> rfl

theorem nothing_dispatch_nodup (cfg : Session) (r : Replies) (s : Nothing.State) (e : XEvent)
    (h : s.managed_windows.Nodup) : (Nothing.dispatch cfg r s e).state.managed_windows.Nodup := by
  rw [nothing_dispatch_managed_windows]
  cases e <;> try exact h
  · next window =>
    show (if find_is_end s.managed_windows window then s.managed_windows ++ [window]
      else s.managed_windows).Nodup
    split
    · next hf =>
      have hnot := (find_is_end_iff _ _).1 hf
      rw [List.nodup_append]
      refine ⟨h, List.nodup_singleton _, ?_⟩
      intro a ha hb
      simp only [List.mem_singleton] at hb
      subst hb
      exact hnot ha
    · exact h
  · next window => exact h.sublist (erase_remove_sublist _ _)

theorem nothing_run_invariant (cfg : Session) (P : Nothing.World → Prop)
    (h0 : P Nothing.World.initial)
    (hstep : ∀ w input, P w → P (Nothing.World.step cfg w input))
    (inputs : List (Replies × XEvent)) : P (Nothing.run cfg inputs) := by
  have key : ∀ (l : List (Replies × XEvent)) (w : Nothing.World),
      P w → P (l.foldl (Nothing.World.step cfg) w) := by
    intro l
    induction l with
    | nil => intro w hw; exact hw
    | cons input rest ih => intro w hw; exact ih _ (hstep w input hw)
  exact key inputs _ h0

/-! ## Window registry -/

/-- C5: in nothing.cpp, after every finite sequence of events (of any kind, in any order,
with any window handles) delivered from program start, `managed_windows` contains no
handle more than once. -/
theorem nothing_registry_nodup (cfg : Session) (inputs : List (Replies × XEvent)) :
    (Nothing.run cfg inputs).wm.managed_windows.Nodup := by
  apply nothing_run_invariant cfg (fun w => w.wm.managed_windows.Nodup)
  · exact List.nodup_nil
  · intro w input hw
    unfold Nothing.World.step
    split
    · exact hw
    · exact nothing_dispatch_nodup cfg input.1 w.wm input.2 hw

/-- C6: in nothing.cpp, MapRequest for handle h leaves the registry unchanged when h is
already managed, and otherwise appends h at the end; the appended h is at index 0 (master)
exactly when the registry was empty. -/
theorem nothing_map_request_insert (cfg : Session) (r : Replies) (s : Nothing.State)
    (h : Window) :
    (h ∈ s.managed_windows →
      (Nothing.dispatch cfg r s (XEvent.MapRequest h)).state.managed_windows
        = s.managed_windows) ∧
    (h ∉ s.managed_windows →
      (Nothing.dispatch cfg r s (XEvent.MapRequest h)).state.managed_windows
          = s.managed_windows ++ [h] ∧
        ((Nothing.dispatch cfg r s (XEvent.MapRequest h)).state.managed_windows.head? = some h
          ↔ s.managed_windows = [])) := by
  rw [nothing_dispatch_managed_windows]
  constructor
  · intro hmem
    have hf : find_is_end s.managed_windows h = false := by
      cases hfe : find_is_end s.managed_windows h
      · rfl
      · exact absurd hmem ((find_is_end_iff _ _).1 hfe)
    simp [hf]
  · intro hnot
    have hf : find_is_end s.managed_windows h = true := (find_is_end_iff _ _).2 hnot
    simp only [hf, if_true, true_and]
    cases hm : s.managed_windows with
    | nil => simp
    | cons x rest =>
      have hx : x ≠ h := by
        intro e
        apply hnot
        rw [hm, e]
        exact List.mem_cons_self _ _
      simp [hx]

/-- C7: in nothing.cpp, DestroyNotify for handle h removes h from the registry and keeps
every other handle in its relative order (the new registry is the old one filtered by
"different from h"); an absent h leaves the registry unchanged, and handling the same
DestroyNotify a second time changes nothing in the state. -/
theorem nothing_destroy_notify_remove (cfg : Session) (r r2 : Replies) (s : Nothing.State)
    (h : Window) :
    h ∉ (Nothing.dispatch cfg r s (XEvent.DestroyNotify h)).state.managed_windows ∧
    (Nothing.dispatch cfg r s (XEvent.DestroyNotify h)).state.managed_windows
      = s.managed_windows.filter (fun x => decide (x ≠ h)) ∧
    (∀ x, x ≠ h →
      (x ∈ (Nothing.dispatch cfg r s (XEvent.DestroyNotify h)).state.managed_windows
        ↔ x ∈ s.managed_windows)) ∧
    (Nothing.dispatch cfg r s (XEvent.DestroyNotify h)).state.managed_windows.Sublist
      s.managed_windows ∧
    (h ∉ s.managed_windows →
      (Nothing.dispatch cfg r s (XEvent.DestroyNotify h)).state.managed_windows
        = s.managed_windows) ∧
    (Nothing.dispatch cfg r2 (Nothing.dispatch cfg r s (XEvent.DestroyNotify h)).state
        (XEvent.DestroyNotify h)).state
      = (Nothing.dispatch cfg r s (XEvent.DestroyNotify h)).state := by
  have hnot : h ∉ erase_remove s.managed_windows h := by
    rw [mem_erase_remove]
    exact fun hh => hh.2 rfl
  refine ⟨?_, ?_, ?_, ?_, ?_, ?_⟩
  · simpa [nothing_dispatch_managed_windows] using hnot
  · rw [nothing_dispatch_managed_windows]
    exact erase_remove_eq_filter _ _
  · intro x hx
    rw [nothing_dispatch_managed_windows]
    simp [mem_erase_remove, hx]
  · rw [nothing_dispatch_managed_windows]
    exact erase_remove_sublist _ _
  · intro habs
    rw [nothing_dispatch_managed_windows]
    exact erase_remove_of_not_mem _ _ habs
  · simp only [Nothing.dispatch]
    rw [erase_remove_of_not_mem _ _ hnot]
    by_cases hf : s.focused_window = h
    · simp [hf]
    · simp [hf]

/-- C8 (evaluation at the failing input): in yourmom.cpp two MapRequests for the same
handle leave it twice in the registry, and a following DestroyNotify for it removes only
the first entry, so the destroyed handle is still managed. -/
theorem yourmom_registry_duplicates (cfg : Session) (r : Replies) :
    (Yourmom.run cfg [(r, XEvent.MapRequest 5), (r, XEvent.MapRequest 5)]).1.managed_windows
        = [5, 5] ∧
      ¬ (Yourmom.run cfg
          [(r, XEvent.MapRequest 5), (r, XEvent.MapRequest 5)]).1.managed_windows.Nodup ∧
      (Yourmom.run cfg [(r, XEvent.MapRequest 5), (r, XEvent.MapRequest 5),
          (r, XEvent.DestroyNotify 5)]).1.managed_windows = [5] ∧
      5 ∈ (Yourmom.run cfg [(r, XEvent.MapRequest 5), (r, XEvent.MapRequest 5),
          (r, XEvent.DestroyNotify 5)]).1.managed_windows := by
  simp [Yourmom.run, Yourmom.step, Yourmom.dispatch, Yourmom.State.initial, erase_first]

/-! ## Lemmas on the display-side view -/

theorem display_foldl_neutral (calls : List Call) (d : Display)
    (h : ∀ c ∈ calls, ∀ d2 : Display, Display.apply d2 c = d2) :
    calls.foldl Display.apply d = d := by
  induction calls generalizing d with
  | nil => rfl
  | cons c rest ih =>
    simp only [List.foldl_cons]
    rw [h c (List.mem_cons_self _ _) d]
    exact ih d (fun c2 hc2 => h c2 (List.mem_cons_of_mem _ hc2))

theorem nothing_stack_loop_move_resize (mw sw sh : Int) :
    ∀ (rest : List Window) (start : Int) (c : Call),
      c ∈ Nothing.stack_loop mw sw sh start rest →
        ∃ w x y width height, c = Call.XMoveResizeWindow w x y width height := by
  intro rest
  induction rest with
  | nil => intro start c hc; simp [Nothing.stack_loop] at hc
  | cons w rest ih =>
    intro start c hc
    simp only [Nothing.stack_loop, List.mem_cons] at hc
    rcases hc with hc | hc
    · exact ⟨_, _, _, _, _, hc⟩
    · exact ih _ c hc

theorem nothing_tile_windows_move_resize (managed_windows : List Window)
    (root_attrs : XWindowAttributes) (c : Call)
    (hc : c ∈ Nothing.tile_windows managed_windows root_attrs) :
    ∃ w x y width height, c = Call.XMoveResizeWindow w x y width height := by
  cases managed_windows with
  | nil => simp [Nothing.tile_windows] at hc
  | cons w0 stack =>
    simp only [Nothing.tile_windows] at hc
    split at hc
    · simp only [List.mem_singleton] at hc
      exact ⟨_, _, _, _, _, hc⟩
    · simp only [List.mem_cons] at hc
      rcases hc with hc | hc
      · exact ⟨_, _, _, _, _, hc⟩
      · exact nothing_stack_loop_move_resize _ _ _ _ _ c hc

theorem nothing_tile_windows_display (managed_windows : List Window)
    (root_attrs : XWindowAttributes) (d : Display) :
    (Nothing.tile_windows managed_windows root_attrs).foldl Display.apply d = d := by
  apply display_foldl_neutral
  intro c hc d2
  obtain ⟨w, x, y, width, height, rfl⟩ :=
    nothing_tile_windows_move_resize managed_windows root_attrs c hc
  rfl

theorem nothing_close_window_display (cfg : Session) (r : Replies) (window : Window)
    (d : Display) : (Nothing.close_window cfg r window).foldl Display.apply d = d := by
  unfold Nothing.close_window
  dsimp only
  split_ifs <;> rfl

theorem nothing_draw_statusbar_display (cfg : Session) (r : Replies) (d : Display) :
    (Nothing.draw_statusbar cfg r).foldl Display.apply d = d := by
  unfold Nothing.draw_statusbar
  split <;> rfl

/-- Borders and liveness are untouched by the key handler, whose requests are spawns,
close messages, kills and the closing of the display. -/
theorem nothing_key_press_display (cfg : Session) (r : Replies) (s : Nothing.State)
    (keycode : KeyCode) (state : Nat) (d : Display) :
    (Nothing.key_press cfg r s keycode state).calls.foldl Display.apply d = d ∧
      (Nothing.key_press cfg r s keycode state).state = s := by
  unfold Nothing.key_press
  repeat' split
  all_goals first
    | exact ⟨rfl, rfl⟩
    | exact ⟨nothing_close_window_display cfg r _ d, rfl⟩

/-- Display after the focus transfer sequence shared by MapRequest and EnterNotify. -/
theorem nothing_focus_transfer_display (d : Display) (f window : Window) :
    ((if f ≠ None then Nothing.set_window_border f false else [])
        ++ [Call.XSetInputFocus window] ++ Nothing.set_window_border window true).foldl
      Display.apply d =
    { d with
      border := fun v =>
        if v = window then Nothing.focused_border_color
        else if f ≠ None ∧ v = f then Nothing.unfocused_border_color
        else d.border v } := by
  by_cases hf : f = None
  · simp [hf, Nothing.set_window_border, Display.apply]
  · simp only [ne_eq, hf, not_false_eq_true, if_true, Nothing.set_window_border,
      List.foldl_append, List.foldl_cons, List.foldl_nil, Display.apply, true_and,
      Bool.false_eq_true, if_false]

/-- The display-side effect of the requests of one iteration of nothing.cpp. -/
theorem nothing_dispatch_display (cfg : Session) (r : Replies) (s : Nothing.State)
    (e : XEvent) (d : Display) :
    (Nothing.dispatch cfg r s e).calls.foldl Display.apply d =
      match e with
      | XEvent.CreateNotify window =>
          { d with
            border := fun v =>
              if v = window then Nothing.unfocused_border_color else d.border v }
      | XEvent.MapRequest window =>
          { d with
            border := fun v =>
              if v = window then Nothing.focused_border_color
              else if s.focused_window ≠ None ∧ v = s.focused_window then
                Nothing.unfocused_border_color
              else d.border v }
      | XEvent.EnterNotify window _ =>
          if window ≠ cfg.root_window ∧ window ≠ s.focused_window then
            { d with
              border := fun v =>
                if v = window then Nothing.focused_border_color
                else if s.focused_window ≠ None ∧ v = s.focused_window then
                  Nothing.unfocused_border_color
                else d.border v }
          else d
      | XEvent.ButtonPress button subwindow _ _ =>
          if button = 1 ∧ subwindow ≠ None then { d with pointer_grabbed := true } else d
      | XEvent.ButtonRelease _ => { d with pointer_grabbed := false }
      | _ => d := by
  cases e with
  | CreateNotify window => rfl
  | MapRequest window =>
    simp only [Nothing.dispatch, List.append_assoc, List.foldl_append]
    rw [nothing_tile_windows_display, ← List.foldl_append, ← List.foldl_append,
      ← List.append_assoc]
    have := nothing_focus_transfer_display (Display.apply d (Call.XMapWindow window))
      s.focused_window window
    simpa [Display.apply] using this
  | EnterNotify window mode =>
    simp only [Nothing.dispatch]
    split
    · exact nothing_focus_transfer_display d s.focused_window window
    · rfl
  | DestroyNotify window => exact nothing_tile_windows_display _ _ d
  | KeyPress keycode state => exact (nothing_key_press_display cfg r s keycode state d).1
  | ConfigureRequest window x y width height border_width above detail value_mask => rfl
  | PropertyNotify window atom =>
    simp only [Nothing.dispatch]
    split
    · exact nothing_draw_statusbar_display cfg r d
    · rfl
  | Expose window =>
    simp only [Nothing.dispatch]
    split
    · exact nothing_draw_statusbar_display cfg r d
    · rfl
  | ButtonPress button subwindow x_root y_root =>
    simp only [Nothing.dispatch]
    by_cases hb : button = 1
    · by_cases hs : subwindow = None
      · simp [hb, hs]
      · simp [hb, hs, Display.apply]
    · simp [hb]
  | MotionNotify x_root y_root =>
    simp only [Nothing.dispatch]
    split <;> rfl
  | ButtonRelease button =>
    simp only [Nothing.dispatch, List.foldl_append, nothing_tile_windows_display]
    rfl
  | other type => rfl

/-- The focused window after one iteration of the loop of nothing.cpp. -/
theorem nothing_dispatch_focused_window (cfg : Session) (r : Replies) (s : Nothing.State)
    (e : XEvent) :
    (Nothing.dispatch cfg r s e).state.focused_window =
      match e with
      | XEvent.MapRequest window => window
      | XEvent.DestroyNotify window =>
          if s.focused_window = window then None else s.focused_window
      | XEvent.EnterNotify window _ =>
          if window ≠ cfg.root_window ∧ window ≠ s.focused_window then window
          else s.focused_window
      | _ => s.focused_window := by
  cases e <;> simp only [Nothing.dispatch, Nothing.key_press] <;> (repeat' split) <;> rfl

/-- The focus invariant: a live window (other than `None`) showing the focused border
is the focused window. -/
theorem nothing_focus_invariant_step (cfg : Session) (w : Nothing.World)
    (input : Replies × XEvent)
    (hw : ∀ v : Window, v ≠ None → w.display.destroyed v = false →
      w.display.border v = Nothing.focused_border_color → v = w.wm.focused_window) :
    ∀ v : Window, v ≠ None → (Nothing.World.step cfg w input).display.destroyed v = false →
      (Nothing.World.step cfg w input).display.border v = Nothing.focused_border_color →
      v = (Nothing.World.step cfg w input).wm.focused_window := by
  unfold Nothing.World.step
  split
  · exact hw
  · obtain ⟨r, e⟩ := input
    have hne : Nothing.unfocused_border_color ≠ Nothing.focused_border_color := by decide
    intro v hv
    simp only [nothing_dispatch_display, nothing_dispatch_focused_window]
    have transfer : ∀ window : Window,
        w.display.destroyed v = false →
        (if v = window then Nothing.focused_border_color
          else if w.wm.focused_window ≠ None ∧ v = w.wm.focused_window then
            Nothing.unfocused_border_color
          else w.display.border v) = Nothing.focused_border_color → v = window := by
      intro window hd hb
      by_cases hvw : v = window
      · exact hvw
      · rw [if_neg hvw] at hb
        split at hb
        · exact absurd hb hne
        · next hcond =>
          have := hw v hv hd hb
          exact absurd ⟨fun h => hv (this ▸ h), this⟩ hcond
    cases e with
    | CreateNotify window =>
      intro hd hb
      simp only [Display.observe] at hd hb
      by_cases hvw : v = window
      · rw [if_pos hvw] at hb
        exact absurd hb hne
      · rw [if_neg hvw] at hd hb
        exact hw v hv hd hb
    | MapRequest window => exact transfer window
    | DestroyNotify window =>
      intro hd hb
      simp only [Display.observe] at hd hb
      by_cases hvw : v = window
      · rw [if_pos hvw] at hd
        cases hd
      · rw [if_neg hvw] at hd
        have := hw v hv hd hb
        show v = if w.wm.focused_window = window then None else w.wm.focused_window
        rw [← this, if_neg hvw]
    | EnterNotify window mode =>
      simp only [Display.observe]
      split
      · exact transfer window
      · exact hw v hv
    | ButtonPress button subwindow x_root y_root =>
      simp only [Display.observe]
      split
      · exact hw v hv
      · exact hw v hv
    | KeyPress keycode state => exact hw v hv
    | ConfigureRequest window x y width height border_width above detail value_mask =>
      exact hw v hv
    | PropertyNotify window atom => exact hw v hv
    | Expose window => exact hw v hv
    | MotionNotify x_root y_root => exact hw v hv
    | ButtonRelease button => exact hw v hv
    | other type => exact hw v hv

/-- Requests of an iteration that moves the focus to a new window: whatever precedes holds
no border request, then the old focused window (if any) is unfocused, then the new one
receives the input focus and the focused border. -/
theorem nothing_focus_change_calls (cfg : Session) (r : Replies) (s : Nothing.State)
    (e : XEvent)
    (hchg : (Nothing.dispatch cfg r s e).state.focused_window ≠ s.focused_window)
    (hnew : (Nothing.dispatch cfg r s e).state.focused_window ≠ None) :
    ∃ pre : List Call, (∀ c ∈ pre, ∀ v p, c ≠ Call.XSetWindowBorder v p) ∧
      (Nothing.dispatch cfg r s e).calls =
        pre ++ (if s.focused_window ≠ None then
            [Call.XSetWindowBorder s.focused_window Nothing.unfocused_border_color] else [])
          ++ [Call.XSetInputFocus (Nothing.dispatch cfg r s e).state.focused_window,
              Call.XSetWindowBorder (Nothing.dispatch cfg r s e).state.focused_window
                Nothing.focused_border_color] := by
  rw [nothing_dispatch_focused_window] at hchg hnew
  cases e with
  | MapRequest window =>
    refine ⟨[Call.XMapWindow window] ++ Nothing.tile_windows
      (Nothing.dispatch cfg r s (XEvent.MapRequest window)).state.managed_windows r.root_attrs,
      ?_, ?_⟩
    · intro c hc v p hcv
      simp only [List.singleton_append, List.mem_cons] at hc
      rcases hc with hc | hc
      · rw [hcv] at hc
        cases hc
      · obtain ⟨a, x, y, wd, ht, ha⟩ := nothing_tile_windows_move_resize _ _ c hc
        rw [hcv] at ha
        cases ha
    · simp [Nothing.dispatch, Nothing.set_window_border]
  | EnterNotify window mode =>
    refine ⟨[], by simp, ?_⟩
    simp only at hchg
    simp only [Nothing.dispatch]
    split
    · simp [Nothing.set_window_border]
    · next hcond => simp [hcond] at hchg
  | DestroyNotify window =>
    simp only at hchg hnew
    split at hnew
    · exact absurd rfl hnew
    · next hcond => simp [hcond] at hchg
  | CreateNotify window => exact absurd rfl hchg
  | ConfigureRequest window x y width height border_width above detail value_mask =>
    exact absurd rfl hchg
  | PropertyNotify window atom => exact absurd rfl hchg
  | Expose window => exact absurd rfl hchg
  | ButtonPress button subwindow x_root y_root => exact absurd rfl hchg
  | MotionNotify x_root y_root => exact absurd rfl hchg
  | ButtonRelease button => exact absurd rfl hchg
  | KeyPress keycode state => exact absurd rfl hchg
  | other type => exact absurd rfl hchg

/-! ## Focus and decoration -/

/-- C9: in nothing.cpp, after every finite sequence of events from program start (no focused
window, every border unfocused), at most one window that is not destroyed shows the focused
border colour; and every iteration that moves the focus to a new window issues the
unfocused border for the previously focused window (when there is one) before the input
focus and the focused border for the new one, with no other border request before them. -/
theorem nothing_focus_exclusive (cfg : Session) (inputs : List (Replies × XEvent)) :
    (∀ v1 v2 : Window, v1 ≠ None → v2 ≠ None →
      (Nothing.run cfg inputs).display.destroyed v1 = false →
      (Nothing.run cfg inputs).display.destroyed v2 = false →
      (Nothing.run cfg inputs).display.border v1 = Nothing.focused_border_color →
      (Nothing.run cfg inputs).display.border v2 = Nothing.focused_border_color →
      v1 = v2) ∧
    (∀ (r : Replies) (e : XEvent),
      (Nothing.dispatch cfg r (Nothing.run cfg inputs).wm e).state.focused_window
        ≠ (Nothing.run cfg inputs).wm.focused_window →
      (Nothing.dispatch cfg r (Nothing.run cfg inputs).wm e).state.focused_window ≠ None →
      ∃ pre : List Call, (∀ c ∈ pre, ∀ v p, c ≠ Call.XSetWindowBorder v p) ∧
        (Nothing.dispatch cfg r (Nothing.run cfg inputs).wm e).calls =
          pre ++ (if (Nothing.run cfg inputs).wm.focused_window ≠ None then
              [Call.XSetWindowBorder (Nothing.run cfg inputs).wm.focused_window
                Nothing.unfocused_border_color] else [])
            ++ [Call.XSetInputFocus
                  (Nothing.dispatch cfg r (Nothing.run cfg inputs).wm e).state.focused_window,
                Call.XSetWindowBorder
                  (Nothing.dispatch cfg r (Nothing.run cfg inputs).wm e).state.focused_window
                  Nothing.focused_border_color]) := by
  constructor
  · have hinv := nothing_run_invariant cfg
      (fun w => ∀ v : Window, v ≠ None → w.display.destroyed v = false →
        w.display.border v = Nothing.focused_border_color → v = w.wm.focused_window)
      (by
        intro v _ _ hb
        have hb2 : Nothing.unfocused_border_color = Nothing.focused_border_color := hb
        exact absurd hb2 (by decide))
      (fun w input hw => nothing_focus_invariant_step cfg w input hw) inputs
    intro v1 v2 h1 h2 hd1 hd2 hb1 hb2
    rw [hinv v1 h1 hd1 hb1, hinv v2 h2 hd2 hb2]
  · intro r e hchg hnew
    exact nothing_focus_change_calls cfg r _ e hchg hnew

/-- Instance of C9: after MapRequest 5 and EnterNotify 7 window 7 shows the focused border,
so window 5 does not. -/
theorem nothing_focus_exclusive_witness :
    (Nothing.run example_session
        [(example_replies, XEvent.MapRequest 5),
          (example_replies, XEvent.EnterNotify 7 0)]).display.border 5
      ≠ Nothing.focused_border_color :=
  fun h5 =>
    absurd
      ((nothing_focus_exclusive example_session
          [(example_replies, XEvent.MapRequest 5),
            (example_replies, XEvent.EnterNotify 7 0)]).1 5 7
        (by decide) (by decide) rfl rfl h5 rfl)
      (by decide)

/-- C10 as stated fails: after MapRequest 5 the focused window is 5, no different window is
focused, and a second MapRequest 5 still issues the unfocused border for window 5 before
refocusing it. -/
theorem nothing_map_request_refocus_counterexample :
    (Nothing.run example_session [(example_replies, XEvent.MapRequest 5)]).wm.focused_window
        = 5 ∧
      (Nothing.dispatch example_session example_replies
          (Nothing.run example_session [(example_replies, XEvent.MapRequest 5)]).wm
          (XEvent.MapRequest 5)).calls =
        [Call.XMapWindow 5, Call.XMoveResizeWindow 5 0 20 1916 1056,
          Call.XSetWindowBorder 5 Nothing.unfocused_border_color, Call.XSetInputFocus 5,
          Call.XSetWindowBorder 5 Nothing.focused_border_color] ∧
      ¬ (Call.XSetWindowBorder 5 Nothing.unfocused_border_color ∈
            (Nothing.dispatch example_session example_replies
              (Nothing.run example_session [(example_replies, XEvent.MapRequest 5)]).wm
              (XEvent.MapRequest 5)).calls
          ↔ ((5 : Window) ≠ None ∧ (5 : Window) ≠ 5)) := by
  decide

/-- C10 (amended): in nothing.cpp, MapRequest for handle w maps w, tiles the new registry,
then issues the unfocused border for the previously focused window exactly when some
window was focused (`focused_window != None`, w itself included), then the input focus and
the focused border for w, and ends with `focused_window = w`, for every prior state. -/
theorem nothing_map_request_focus (cfg : Session) (r : Replies) (s : Nothing.State)
    (w : Window) :
    (Nothing.dispatch cfg r s (XEvent.MapRequest w)).calls =
        [Call.XMapWindow w]
          ++ Nothing.tile_windows
              (Nothing.dispatch cfg r s (XEvent.MapRequest w)).state.managed_windows
              r.root_attrs
          ++ (if s.focused_window ≠ None then
              [Call.XSetWindowBorder s.focused_window Nothing.unfocused_border_color] else [])
          ++ [Call.XSetInputFocus w, Call.XSetWindowBorder w Nothing.focused_border_color] ∧
      (∀ v, Call.XSetWindowBorder v Nothing.unfocused_border_color ∈
          (Nothing.dispatch cfg r s (XEvent.MapRequest w)).calls ↔
        (s.focused_window ≠ None ∧ v = s.focused_window)) ∧
      (Nothing.dispatch cfg r s (XEvent.MapRequest w)).state.focused_window = w ∧
      (Nothing.dispatch cfg r s (XEvent.MapRequest w)).returned = none := by
  have hcalls : (Nothing.dispatch cfg r s (XEvent.MapRequest w)).calls =
        [Call.XMapWindow w]
          ++ Nothing.tile_windows
              (Nothing.dispatch cfg r s (XEvent.MapRequest w)).state.managed_windows
              r.root_attrs
          ++ (if s.focused_window ≠ None then
              [Call.XSetWindowBorder s.focused_window Nothing.unfocused_border_color] else [])
          ++ [Call.XSetInputFocus w, Call.XSetWindowBorder w Nothing.focused_border_color] := by
    simp [Nothing.dispatch, Nothing.set_window_border]
  refine ⟨hcalls, ?_, rfl, rfl⟩
  intro v
  rw [hcalls]
  have htile : Call.XSetWindowBorder v Nothing.unfocused_border_color ∉
      Nothing.tile_windows
        (Nothing.dispatch cfg r s (XEvent.MapRequest w)).state.managed_windows r.root_attrs := by
    intro hmem
    obtain ⟨a, x, y, wd, ht, ha⟩ := nothing_tile_windows_move_resize _ _ _ hmem
    cases ha
  have hne : Nothing.unfocused_border_color ≠ Nothing.focused_border_color := by decide
  by_cases hf : s.focused_window = None
  · simp [hf, htile, hne]
  · simp [hf, htile, hne]

/-! ## Lemmas on the targets of the tiling requests -/

theorem nothing_stack_loop_targets (mw sw sh : Int) :
    ∀ (rest : List Window) (start : Int) (c : Call),
      c ∈ Nothing.stack_loop mw sw sh start rest →
        ∃ w x y width height, w ∈ rest ∧ c = Call.XMoveResizeWindow w x y width height := by
  intro rest
  induction rest with
  | nil => intro start c hc; simp [Nothing.stack_loop] at hc
  | cons w rest ih =>
    intro start c hc
    simp only [Nothing.stack_loop, List.mem_cons] at hc
    rcases hc with hc | hc
    · exact ⟨w, _, _, _, _, List.mem_cons_self _ _, hc⟩
    · obtain ⟨v, x, y, wd, ht, hv, hc2⟩ := ih _ c hc
      exact ⟨v, x, y, wd, ht, List.mem_cons_of_mem _ hv, hc2⟩

/-- Every request of `tile_windows` is a move-resize of a window of the registry. -/
theorem nothing_tile_windows_targets (managed_windows : List Window)
    (root_attrs : XWindowAttributes) (c : Call)
    (hc : c ∈ Nothing.tile_windows managed_windows root_attrs) :
    ∃ w x y width height,
      w ∈ managed_windows ∧ c = Call.XMoveResizeWindow w x y width height := by
  cases managed_windows with
  | nil => simp [Nothing.tile_windows] at hc
  | cons w0 stack =>
    simp only [Nothing.tile_windows] at hc
    split at hc
    · simp only [List.mem_singleton] at hc
      exact ⟨w0, _, _, _, _, List.mem_cons_self _ _, hc⟩
    · simp only [List.mem_cons] at hc
      rcases hc with hc | hc
      · exact ⟨w0, _, _, _, _, List.mem_cons_self _ _, hc⟩
      · obtain ⟨v, x, y, wd, ht, hv, hc2⟩ := nothing_stack_loop_targets _ _ _ _ _ c hc
        exact ⟨v, x, y, wd, ht, List.mem_cons_of_mem _ hv, hc2⟩

/-! ## Focus on pointer entry and on destruction -/

/-- C11: in nothing.cpp, EnterNotify for window w transfers the focus to w (unfocused border
for the previously focused window if there is one, then input focus and focused border for
w, and `focused_window = w`) if and only if w is neither the root window nor the focused
window; otherwise no request is issued and the state is unchanged. -/
theorem nothing_enter_notify_focus (cfg : Session) (r : Replies) (s : Nothing.State)
    (w : Window) (mode : Int) :
    ((Nothing.dispatch cfg r s (XEvent.EnterNotify w mode)).calls =
        (if s.focused_window ≠ None then
            [Call.XSetWindowBorder s.focused_window Nothing.unfocused_border_color] else [])
          ++ [Call.XSetInputFocus w, Call.XSetWindowBorder w Nothing.focused_border_color]
      ↔ (w ≠ cfg.root_window ∧ w ≠ s.focused_window)) ∧
    ((w ≠ cfg.root_window ∧ w ≠ s.focused_window) →
      (Nothing.dispatch cfg r s (XEvent.EnterNotify w mode)).state
        = { s with focused_window := w }) ∧
    (¬ (w ≠ cfg.root_window ∧ w ≠ s.focused_window) →
      (Nothing.dispatch cfg r s (XEvent.EnterNotify w mode)).calls = [] ∧
      (Nothing.dispatch cfg r s (XEvent.EnterNotify w mode)).state = s) ∧
    (Nothing.dispatch cfg r s (XEvent.EnterNotify w mode)).returned = none := by
  by_cases hc : w ≠ cfg.root_window ∧ w ≠ s.focused_window
  · have hcalls : (Nothing.dispatch cfg r s (XEvent.EnterNotify w mode)).calls =
        (if s.focused_window ≠ None then
            [Call.XSetWindowBorder s.focused_window Nothing.unfocused_border_color] else [])
          ++ [Call.XSetInputFocus w, Call.XSetWindowBorder w Nothing.focused_border_color] := by
      simp only [Nothing.dispatch, if_pos hc, Nothing.set_window_border]
      by_cases hf : s.focused_window = None <;> simp [hf]
    refine ⟨⟨fun _ => hc, fun _ => hcalls⟩, ?_, fun h => absurd hc h, ?_⟩
    · intro _
      simp only [Nothing.dispatch, if_pos hc]
    · simp only [Nothing.dispatch, if_pos hc]
  · have hcalls : (Nothing.dispatch cfg r s (XEvent.EnterNotify w mode)).calls = [] := by
      simp only [Nothing.dispatch, if_neg hc]
    refine ⟨⟨?_, fun h => absurd h hc⟩, fun h => absurd h hc, fun _ => ⟨hcalls, ?_⟩, ?_⟩
    · intro h
      rw [hcalls] at h
      exact absurd (congrArg List.length h) (by
        by_cases hf : s.focused_window = None <;> simp [hf])
    · simp only [Nothing.dispatch, if_neg hc]
    · simp only [Nothing.dispatch, if_neg hc]

/-- C12: in nothing.cpp, DestroyNotify for handle h sets `focused_window` to None when it was
h and leaves it unchanged otherwise; every request issued is a move-resize of a window of the
new registry, hence of a window other than h: no border, input-focus, close-message or kill
request is issued for h. -/
theorem nothing_destroy_notify_clear_if (cfg : Session) (r : Replies) (s : Nothing.State)
    (h : Window) :
    (Nothing.dispatch cfg r s (XEvent.DestroyNotify h)).state.focused_window
        = (if s.focused_window = h then None else s.focused_window) ∧
    (∀ c ∈ (Nothing.dispatch cfg r s (XEvent.DestroyNotify h)).calls,
      ∃ w x y width height, w ≠ h ∧ c = Call.XMoveResizeWindow w x y width height) ∧
    (∀ p : Pixel, Call.XSetWindowBorder h p ∉
      (Nothing.dispatch cfg r s (XEvent.DestroyNotify h)).calls) ∧
    Call.XSetInputFocus h ∉ (Nothing.dispatch cfg r s (XEvent.DestroyNotify h)).calls ∧
    (∀ (mask : Nat) (cm : XClientMessageEvent), Call.XSendEvent h mask cm ∉
      (Nothing.dispatch cfg r s (XEvent.DestroyNotify h)).calls) ∧
    Call.XKillClient h ∉ (Nothing.dispatch cfg r s (XEvent.DestroyNotify h)).calls := by
  have hall : ∀ c ∈ (Nothing.dispatch cfg r s (XEvent.DestroyNotify h)).calls,
      ∃ w x y width height, w ≠ h ∧ c = Call.XMoveResizeWindow w x y width height := by
    intro c hc
    obtain ⟨w, x, y, wd, ht, hw, hcw⟩ := nothing_tile_windows_targets _ _ c hc
    refine ⟨w, x, y, wd, ht, ?_, hcw⟩
    exact ((mem_erase_remove _ _ _).1 hw).2
  refine ⟨rfl, hall, ?_, ?_, ?_, ?_⟩
  · intro p hmem
    obtain ⟨w, x, y, wd, ht, _, hc⟩ := hall _ hmem
    cases hc
  · intro hmem
    obtain ⟨w, x, y, wd, ht, _, hc⟩ := hall _ hmem
    cases hc
  · intro mask cm hmem
    obtain ⟨w, x, y, wd, ht, _, hc⟩ := hall _ hmem
    cases hc
  · intro hmem
    obtain ⟨w, x, y, wd, ht, _, hc⟩ := hall _ hmem
    cases hc

/-! ## End-to-end scenario -/

/-- C13 as stated fails: after MapRequest 5, MapRequest 7 and DestroyNotify 5 the focused
window is 7, not None. -/
theorem nothing_scenario_counterexample :
    (Nothing.run example_session
        [(example_replies, XEvent.MapRequest 5), (example_replies, XEvent.MapRequest 7),
          (example_replies, XEvent.DestroyNotify 5)]).wm.focused_window = 7 ∧
      (Nothing.run example_session
        [(example_replies, XEvent.MapRequest 5), (example_replies, XEvent.MapRequest 7),
          (example_replies, XEvent.DestroyNotify 5)]).wm.focused_window ≠ None := by
  decide

/-- C13 (amended): in nothing.cpp, for distinct handles W1 and W2 and from program start:
MapRequest W1 gives registry [W1], focus W1 and the single-window rectangle for W1;
MapRequest W2 gives registry [W1, W2], focus W2 and the master rectangle for W1 with the
stack rectangle for W2; DestroyNotify W1 gives registry [W2], leaves the focus on W2, and
gives W2 the single-window rectangle (widths and heights as passed, that is converted to
`unsigned int`). -/
theorem nothing_scenario (cfg : Session) (r1 r2 r3 : Replies) (W1 W2 : Window)
    (hne : W1 ≠ W2) :
    ((Nothing.run cfg [(r1, XEvent.MapRequest W1)]).wm.managed_windows = [W1] ∧
      (Nothing.run cfg [(r1, XEvent.MapRequest W1)]).wm.focused_window = W1 ∧
      (Nothing.dispatch cfg r1 Nothing.State.initial (XEvent.MapRequest W1)).calls =
        [Call.XMapWindow W1,
          Call.XMoveResizeWindow W1 0 20 (unsigned_int (r1.root_attrs.width - 4))
            (unsigned_int (r1.root_attrs.height - 20 - 4)),
          Call.XSetInputFocus W1,
          Call.XSetWindowBorder W1 Nothing.focused_border_color]) ∧
    ((Nothing.run cfg [(r1, XEvent.MapRequest W1), (r2, XEvent.MapRequest W2)]).wm.managed_windows
        = [W1, W2] ∧
      (Nothing.run cfg [(r1, XEvent.MapRequest W1), (r2, XEvent.MapRequest W2)]).wm.focused_window
        = W2 ∧
      (Nothing.dispatch cfg r2 (Nothing.run cfg [(r1, XEvent.MapRequest W1)]).wm
          (XEvent.MapRequest W2)).calls =
        [Call.XMapWindow W2,
          Call.XMoveResizeWindow W1 0 20 (unsigned_int (master_width r2.root_attrs.width - 4))
            (unsigned_int (r2.root_attrs.height - 20 - 4)),
          Call.XMoveResizeWindow W2 (master_width r2.root_attrs.width) 20
            (unsigned_int (r2.root_attrs.width - master_width r2.root_attrs.width - 4))
            (unsigned_int (r2.root_attrs.height - 20 - 4))]
          ++ (if W1 ≠ None then [Call.XSetWindowBorder W1 Nothing.unfocused_border_color]
              else [])
          ++ [Call.XSetInputFocus W2,
              Call.XSetWindowBorder W2 Nothing.focused_border_color]) ∧
    ((Nothing.run cfg [(r1, XEvent.MapRequest W1), (r2, XEvent.MapRequest W2),
          (r3, XEvent.DestroyNotify W1)]).wm.managed_windows = [W2] ∧
      (Nothing.run cfg [(r1, XEvent.MapRequest W1), (r2, XEvent.MapRequest W2),
          (r3, XEvent.DestroyNotify W1)]).wm.focused_window = W2 ∧
      (Nothing.dispatch cfg r3
          (Nothing.run cfg [(r1, XEvent.MapRequest W1), (r2, XEvent.MapRequest W2)]).wm
          (XEvent.DestroyNotify W1)).calls =
        [Call.XMoveResizeWindow W2 0 20 (unsigned_int (r3.root_attrs.width - 4))
          (unsigned_int (r3.root_attrs.height - 20 - 4))]) := by
  have hne2 : ¬ W2 = W1 := fun h => hne h.symm
  have h1 : (Nothing.run cfg [(r1, XEvent.MapRequest W1)]).wm =
      { Nothing.State.initial with managed_windows := [W1], focused_window := W1 } := by
    simp [Nothing.run, Nothing.World.step, Nothing.World.initial, Nothing.dispatch,
      Nothing.State.initial, find_is_end]
  have h2 : (Nothing.run cfg [(r1, XEvent.MapRequest W1), (r2, XEvent.MapRequest W2)]).wm =
      { Nothing.State.initial with managed_windows := [W1, W2], focused_window := W2 } := by
    simp [Nothing.run, Nothing.World.step, Nothing.World.initial, Nothing.dispatch,
      Nothing.State.initial, find_is_end, hne]
  have h3 : (Nothing.run cfg [(r1, XEvent.MapRequest W1), (r2, XEvent.MapRequest W2),
        (r3, XEvent.DestroyNotify W1)]).wm =
      { Nothing.State.initial with managed_windows := [W2], focused_window := W2 } := by
    simp [Nothing.run, Nothing.World.step, Nothing.World.initial, Nothing.dispatch,
      Nothing.State.initial, find_is_end, erase_remove, hne, hne2]
  refine ⟨⟨?_, ?_, ?_⟩, ⟨?_, ?_, ?_⟩, ⟨?_, ?_, ?_⟩⟩
  · rw [h1]
  · rw [h1]
  · simp [Nothing.dispatch, Nothing.State.initial, find_is_end, Nothing.tile_windows,
      Nothing.set_window_border, Nothing.statusbar_height, Nothing.border_width]
  · rw [h2]
  · rw [h2]
  · rw [h1]
    simp [Nothing.dispatch, Nothing.State.initial, find_is_end, Nothing.tile_windows,
      Nothing.stack_loop, Nothing.stack_height, Nothing.set_window_border,
      Nothing.statusbar_height, Nothing.border_width, hne]
  · rw [h3]
  · rw [h3]
  · rw [h2]
    simp [Nothing.dispatch, Nothing.State.initial, erase_remove, Nothing.tile_windows,
      Nothing.statusbar_height, Nothing.border_width, hne2]

/-- Instance of C13 with W1 = 5 and W2 = 7 on the 1920x1080 display. -/
theorem nothing_scenario_witness :
    (5 : Window) ≠ 7 ∧
      (Nothing.run example_session
        [(example_replies, XEvent.MapRequest 5), (example_replies, XEvent.MapRequest 7),
          (example_replies, XEvent.DestroyNotify 5)]).wm.managed_windows = [7] ∧
      (Nothing.run example_session
        [(example_replies, XEvent.MapRequest 5), (example_replies, XEvent.MapRequest 7),
          (example_replies, XEvent.DestroyNotify 5)]).wm.focused_window = 7 :=
  ⟨by decide,
    (nothing_scenario example_session example_replies example_replies example_replies 5 7
      (by decide)).2.2.1,
    (nothing_scenario example_session example_replies example_replies example_replies 5 7
      (by decide)).2.2.2.1⟩

/-! ## Lemmas on the geometry left by the tiling requests -/

theorem placement_cons (c : Call) (calls : List Call) (g : Window → XWindowAttributes) :
    placement (c :: calls) g = placement calls (place g c) := rfl

/-- Move-resizes of other windows leave the rectangle of `h` as it was. -/
theorem placement_untouched (calls : List Call) (h : Window) :
    ∀ g : Window → XWindowAttributes,
      (∀ c ∈ calls, ∃ w x y width height,
        w ≠ h ∧ c = Call.XMoveResizeWindow w x y width height) →
      placement calls g h = g h := by
  induction calls with
  | nil => intro g _; rfl
  | cons c rest ih =>
    intro g hall
    rw [placement_cons, ih _ (fun c2 hc2 => hall c2 (List.mem_cons_of_mem _ hc2))]
    obtain ⟨w, x, y, wd, ht, hw, rfl⟩ := hall c (List.mem_cons_self _ _)
    have hne : ¬ h = w := fun e => hw e.symm
    simp [place, hne]

theorem nothing_stack_loop_placement (mw sw sh : Int) :
    ∀ (rest : List Window) (start : Int) (g : Window → XWindowAttributes) (h : Window),
      rest.Nodup → h ∈ rest →
      ∃ x y width height,
        Call.XMoveResizeWindow h x y width height ∈ Nothing.stack_loop mw sw sh start rest ∧
        placement (Nothing.stack_loop mw sw sh start rest) g h
          = { x := x, y := y, width := width, height := height } := by
  intro rest
  induction rest with
  | nil => intro start g h _ hmem; simp at hmem
  | cons w rest ih =>
    intro start g h hnd hmem
    have hnd2 := List.nodup_cons.1 hnd
    simp only [Nothing.stack_loop, placement_cons]
    by_cases hw : h = w
    · subst hw
      refine ⟨_, _, _, _, List.mem_cons_self _ _, ?_⟩
      rw [placement_untouched]
      · simp [place]
      · intro c hc
        obtain ⟨v, x, y, wd, ht, hv, hcv⟩ := nothing_stack_loop_targets _ _ _ _ _ c hc
        exact ⟨v, x, y, wd, ht, fun e => hnd2.1 (e ▸ hv), hcv⟩
    · have hin : h ∈ rest := by
        rcases List.mem_cons.1 hmem with e | e
        · exact absurd e hw
        · exact e
      obtain ⟨x, y, wd, ht, h1, h2⟩ := ih (start + 1) (place g _) h hnd2.2 hin
      exact ⟨x, y, wd, ht, List.mem_cons_of_mem _ h1, h2⟩

/-- On a registry without duplicates, `tile_windows` leaves every managed window on the one
rectangle it requests for it, whatever the rectangles were before. -/
theorem nothing_tile_windows_placement (managed_windows : List Window)
    (root_attrs : XWindowAttributes) (g : Window → XWindowAttributes) (h : Window)
    (hnd : managed_windows.Nodup) (hmem : h ∈ managed_windows) :
    ∃ x y width height,
      Call.XMoveResizeWindow h x y width height
          ∈ Nothing.tile_windows managed_windows root_attrs ∧
        placement (Nothing.tile_windows managed_windows root_attrs) g h
          = { x := x, y := y, width := width, height := height } := by
  cases managed_windows with
  | nil => simp at hmem
  | cons w0 stack =>
    have hnd2 := List.nodup_cons.1 hnd
    simp only [Nothing.tile_windows]
    split
    · next hone =>
      have hstack : stack = [] := by
        simp only [List.length_cons, Nat.cast_add, Nat.cast_one] at hone
        have : stack.length = 0 := by omega
        exact List.length_eq_zero.1 this
      subst hstack
      have hw : h = w0 := by simpa using hmem
      subst hw
      exact ⟨_, _, _, _, List.mem_singleton.2 rfl, by simp [placement, place]⟩
    · simp only [placement_cons]
      by_cases hw : h = w0
      · subst hw
        refine ⟨_, _, _, _, List.mem_cons_self _ _, ?_⟩
        rw [placement_untouched]
        · simp [place]
        · intro c hc
          obtain ⟨v, x, y, wd, ht, hv, hcv⟩ := nothing_stack_loop_targets _ _ _ _ _ c hc
          exact ⟨v, x, y, wd, ht, fun e => hnd2.1 (e ▸ hv), hcv⟩
      · have hin : h ∈ stack := by
          rcases List.mem_cons.1 hmem with e | e
          · exact absurd e hw
          · exact e
        obtain ⟨x, y, wd, ht, h1, h2⟩ :=
          nothing_stack_loop_placement _ _ _ stack 1 (place g _) h hnd2.2 hin
        exact ⟨x, y, wd, ht, List.mem_cons_of_mem _ h1, h2⟩

/-! ## Drag-move -/

/-- C14 as stated fails for a dragged window that is not managed: with window 5 managed,
a button-1 press on window 9, which never asked to be mapped, starts a drag, a motion moves
it to (50, 60), and the release re-tiles window 5 only, so window 9 stays where it was
dragged. -/
theorem nothing_button_release_unmanaged_counterexample :
    (Nothing.run example_session
        [(example_replies, XEvent.MapRequest 5),
          (example_replies, XEvent.ButtonPress 1 9 100 100)]).wm.is_moving = true ∧
      (Nothing.run example_session
        [(example_replies, XEvent.MapRequest 5),
          (example_replies, XEvent.ButtonPress 1 9 100 100)]).wm.current_moving_window = 9 ∧
      (Nothing.dispatch example_session example_replies
          (Nothing.run example_session
            [(example_replies, XEvent.MapRequest 5),
              (example_replies, XEvent.ButtonPress 1 9 100 100)]).wm
          (XEvent.MotionNotify 150 160)).calls = [Call.XMoveWindow 9 50 60] ∧
      (Nothing.dispatch example_session example_replies
          (Nothing.run example_session
            [(example_replies, XEvent.MapRequest 5),
              (example_replies, XEvent.ButtonPress 1 9 100 100),
              (example_replies, XEvent.MotionNotify 150 160)]).wm
          (XEvent.ButtonRelease 1)).calls
        = [Call.XUngrabPointer, Call.XMoveResizeWindow 5 0 20 1916 1056] ∧
      placement
          ([Call.XMoveWindow 9 50 60] ++
            (Nothing.dispatch example_session example_replies
              (Nothing.run example_session
                [(example_replies, XEvent.MapRequest 5),
                  (example_replies, XEvent.ButtonPress 1 9 100 100),
                  (example_replies, XEvent.MotionNotify 150 160)]).wm
              (XEvent.ButtonRelease 1)).calls)
          example_replies.win_attrs 9
        = { x := 50, y := 60, width := 100, height := 100 } := by
  decide

/-- C14 (amended): in nothing.cpp, ButtonRelease (any button) sets `is_moving = false` and
`current_moving_window = None`, keeps the registry, issues XUngrabPointer (after which no
grab is held) followed by the tiling of the current registry; every window h that is in
`managed_windows` (a registry without duplicates), the dragged one included, is left on the
rectangle `tile_windows` requests for h, whatever the rectangles were before the release. -/
theorem nothing_button_release_retile (cfg : Session) (r : Replies) (s : Nothing.State)
    (button : Nat) (g : Window → XWindowAttributes) (d : Display) (h : Window)
    (hmem : h ∈ s.managed_windows) (hnd : s.managed_windows.Nodup) :
    (Nothing.dispatch cfg r s (XEvent.ButtonRelease button)).state.is_moving = false ∧
    (Nothing.dispatch cfg r s (XEvent.ButtonRelease button)).state.current_moving_window
      = None ∧
    (Nothing.dispatch cfg r s (XEvent.ButtonRelease button)).state.managed_windows
      = s.managed_windows ∧
    (Nothing.dispatch cfg r s (XEvent.ButtonRelease button)).calls
      = Call.XUngrabPointer :: Nothing.tile_windows s.managed_windows r.root_attrs ∧
    ((Nothing.dispatch cfg r s (XEvent.ButtonRelease button)).calls.foldl
      Display.apply d).pointer_grabbed = false ∧
    ∃ x y width height,
      Call.XMoveResizeWindow h x y width height
          ∈ Nothing.tile_windows s.managed_windows r.root_attrs ∧
        placement (Nothing.dispatch cfg r s (XEvent.ButtonRelease button)).calls g h
          = { x := x, y := y, width := width, height := height } := by
  refine ⟨rfl, rfl, rfl, rfl, ?_, ?_⟩
  · rw [nothing_dispatch_display]
  · obtain ⟨x, y, wd, ht, h1, h2⟩ :=
      nothing_tile_windows_placement s.managed_windows r.root_attrs
        (place g Call.XUngrabPointer) h hnd hmem
    exact ⟨x, y, wd, ht, h1, h2⟩

/-- Instance of C14: the release of the dragged managed window 7 of `example_drag_state`,
displaced to (650, 420), leaves it on a rectangle requested by the tiling. -/
theorem nothing_button_release_retile_witness :
    (example_drag_state.current_moving_window = 7 ∧
      (7 : Window) ∈ example_drag_state.managed_windows ∧
      example_drag_state.managed_windows.Nodup) ∧
    ∃ x y width height,
      Call.XMoveResizeWindow 7 x y width height
          ∈ Nothing.tile_windows example_drag_state.managed_windows example_replies.root_attrs ∧
        placement
            (Nothing.dispatch example_session example_replies example_drag_state
              (XEvent.ButtonRelease 1)).calls
            (fun _ => { x := 650, y := 420, width := 764, height := 1056 }) 7
          = { x := x, y := y, width := width, height := height } :=
  ⟨⟨rfl, by decide, by decide⟩,
    (nothing_button_release_retile example_session example_replies example_drag_state 1
      (fun _ => { x := 650, y := 420, width := 764, height := 1056 })
      Nothing.World.initial.display 7 (by decide) (by decide)).2.2.2.2.2⟩

/-! ## Lemmas on the interaction state -/

/-- The drag flag after one iteration of the loop of nothing.cpp. -/
theorem nothing_dispatch_is_moving (cfg : Session) (r : Replies) (s : Nothing.State)
    (e : XEvent) :
    (Nothing.dispatch cfg r s e).state.is_moving =
      match e with
      | XEvent.ButtonPress button subwindow _ _ =>
          if button = 1 then (if subwindow = None then false else true) else s.is_moving
      | XEvent.ButtonRelease _ => false
      | _ => s.is_moving := by
  cases e <;> simp only [Nothing.dispatch, Nothing.key_press] <;> (repeat' split) <;> rfl

/-- The drag target after one iteration of the loop of nothing.cpp. -/
theorem nothing_dispatch_current_moving_window (cfg : Session) (r : Replies)
    (s : Nothing.State) (e : XEvent) :
    (Nothing.dispatch cfg r s e).state.current_moving_window =
      match e with
      | XEvent.ButtonPress button subwindow _ _ =>
          if button = 1 then subwindow else s.current_moving_window
      | XEvent.ButtonRelease _ => None
      | _ => s.current_moving_window := by
  cases e <;> simp only [Nothing.dispatch, Nothing.key_press] <;> (repeat' split) <;> rfl

/-- The pointer grab after the requests of one iteration of nothing.cpp. -/
theorem nothing_dispatch_pointer_grabbed (cfg : Session) (r : Replies) (s : Nothing.State)
    (e : XEvent) (d : Display) :
    ((Nothing.dispatch cfg r s e).calls.foldl Display.apply (d.observe e)).pointer_grabbed =
      match e with
      | XEvent.ButtonPress button subwindow _ _ =>
          if button = 1 ∧ subwindow ≠ None then true else d.pointer_grabbed
      | XEvent.ButtonRelease _ => false
      | _ => d.pointer_grabbed := by
  rw [nothing_dispatch_display]
  cases e <;> simp only [Display.observe] <;> (repeat' split) <;> rfl

/-- While the drag flag is set there is a drag target and the grab is held. -/
theorem nothing_drag_invariant_step (cfg : Session) (w : Nothing.World)
    (input : Replies × XEvent)
    (hw : w.wm.is_moving = true →
      w.wm.current_moving_window ≠ None ∧ w.display.pointer_grabbed = true) :
    (Nothing.World.step cfg w input).wm.is_moving = true →
      (Nothing.World.step cfg w input).wm.current_moving_window ≠ None ∧
        (Nothing.World.step cfg w input).display.pointer_grabbed = true := by
  unfold Nothing.World.step
  split
  · exact hw
  · obtain ⟨r, e⟩ := input
    simp only [nothing_dispatch_is_moving, nothing_dispatch_current_moving_window,
      nothing_dispatch_pointer_grabbed]
    cases e with
    | ButtonPress button subwindow x_root y_root =>
      simp only
      by_cases hb : button = 1
      · by_cases hs : subwindow = None
        · simp [hb, hs]
        · simp [hb, hs]
      · simpa [hb] using hw
    | ButtonRelease button => simp
    | _ => exact hw

theorem nothing_run_snoc (cfg : Session) (inputs : List (Replies × XEvent))
    (input : Replies × XEvent) :
    Nothing.run cfg (inputs ++ [input]) = Nothing.World.step cfg (Nothing.run cfg inputs) input := by
  simp [Nothing.run, List.foldl_append]

/-! ## Interaction state machine -/

/-- C15 as stated fails: after a button-1 press on window 5 and DestroyNotify 5 the state is
still dragging window 5 with the grab held, the DestroyNotify handler issued no
XUngrabPointer, and a following MotionNotify moves window 5. -/
theorem nothing_destroy_during_drag_counterexample :
    (Nothing.run example_session
        [(example_replies, XEvent.ButtonPress 1 5 100 100),
          (example_replies, XEvent.DestroyNotify 5)]).wm.is_moving = true ∧
      (Nothing.run example_session
        [(example_replies, XEvent.ButtonPress 1 5 100 100),
          (example_replies, XEvent.DestroyNotify 5)]).wm.current_moving_window = 5 ∧
      (Nothing.run example_session
        [(example_replies, XEvent.ButtonPress 1 5 100 100),
          (example_replies, XEvent.DestroyNotify 5)]).display.pointer_grabbed = true ∧
      Call.XUngrabPointer ∉
        (Nothing.dispatch example_session example_replies
          (Nothing.run example_session [(example_replies, XEvent.ButtonPress 1 5 100 100)]).wm
          (XEvent.DestroyNotify 5)).calls ∧
      (Nothing.dispatch example_session example_replies
          (Nothing.run example_session
            [(example_replies, XEvent.ButtonPress 1 5 100 100),
              (example_replies, XEvent.DestroyNotify 5)]).wm
          (XEvent.MotionNotify 150 160)).calls = [Call.XMoveWindow 5 50 60] := by
  decide

/-- C15 (amended): in nothing.cpp, if the state is dragging with target h, DestroyNotify for
h leaves `is_moving = true` and `current_moving_window = h`, issues no XUngrabPointer (the
grab stays as it was) and only move-resizes of windows other than h; the next ButtonRelease
sets `is_moving = false` and `current_moving_window = None` and issues XUngrabPointer. -/
theorem nothing_destroy_during_drag (cfg : Session) (r r2 : Replies) (s : Nothing.State)
    (h : Window) (d : Display) (button : Nat)
    (hmov : s.is_moving = true) (htarget : s.current_moving_window = h) :
    (Nothing.dispatch cfg r s (XEvent.DestroyNotify h)).state.is_moving = true ∧
    (Nothing.dispatch cfg r s (XEvent.DestroyNotify h)).state.current_moving_window = h ∧
    Call.XUngrabPointer ∉ (Nothing.dispatch cfg r s (XEvent.DestroyNotify h)).calls ∧
    ((Nothing.dispatch cfg r s (XEvent.DestroyNotify h)).calls.foldl Display.apply
        (d.observe (XEvent.DestroyNotify h))).pointer_grabbed = d.pointer_grabbed ∧
    (∀ c ∈ (Nothing.dispatch cfg r s (XEvent.DestroyNotify h)).calls,
      ∃ w x y width height, w ≠ h ∧ c = Call.XMoveResizeWindow w x y width height) ∧
    (Nothing.dispatch cfg r2 (Nothing.dispatch cfg r s (XEvent.DestroyNotify h)).state
        (XEvent.ButtonRelease button)).state.is_moving = false ∧
    (Nothing.dispatch cfg r2 (Nothing.dispatch cfg r s (XEvent.DestroyNotify h)).state
        (XEvent.ButtonRelease button)).state.current_moving_window = None ∧
    Call.XUngrabPointer ∈
      (Nothing.dispatch cfg r2 (Nothing.dispatch cfg r s (XEvent.DestroyNotify h)).state
        (XEvent.ButtonRelease button)).calls := by
  have hall : ∀ c ∈ (Nothing.dispatch cfg r s (XEvent.DestroyNotify h)).calls,
      ∃ w x y width height, w ≠ h ∧ c = Call.XMoveResizeWindow w x y width height := by
    intro c hc
    obtain ⟨w, x, y, wd, ht, hw, hcw⟩ := nothing_tile_windows_targets _ _ c hc
    exact ⟨w, x, y, wd, ht, ((mem_erase_remove _ _ _).1 hw).2, hcw⟩
  refine ⟨hmov, htarget, ?_, ?_, hall, rfl, rfl, ?_⟩
  · intro hmem
    obtain ⟨w, x, y, wd, ht, _, hc⟩ := hall _ hmem
    cases hc
  · rw [nothing_dispatch_pointer_grabbed]
  · simp [Nothing.dispatch]

/-- Instance of C15 on `example_drag_state`, whose drag target is window 7. -/
theorem nothing_destroy_during_drag_witness :
    (example_drag_state.is_moving = true ∧ example_drag_state.current_moving_window = 7) ∧
      (Nothing.dispatch example_session example_replies example_drag_state
        (XEvent.DestroyNotify 7)).state.is_moving = true ∧
      (Nothing.dispatch example_session example_replies example_drag_state
        (XEvent.DestroyNotify 7)).state.current_moving_window = 7 :=
  ⟨⟨rfl, rfl⟩,
    (nothing_destroy_during_drag example_session example_replies example_replies
      example_drag_state 7 Nothing.World.initial.display 1 rfl rfl).1,
    (nothing_destroy_during_drag example_session example_replies example_replies
      example_drag_state 7 Nothing.World.initial.display 1 rfl rfl).2.1⟩

/-- C16: in nothing.cpp, at every event boundary reached from program start, `is_moving`
implies that `current_moving_window` is not None and that the pointer grab requested by
the manager is held; and after a ButtonRelease is handled `is_moving` is false,
`current_moving_window` is None and the grab is released. -/
theorem nothing_drag_invariant (cfg : Session) (inputs : List (Replies × XEvent)) :
    ((Nothing.run cfg inputs).wm.is_moving = true →
      (Nothing.run cfg inputs).wm.current_moving_window ≠ None ∧
        (Nothing.run cfg inputs).display.pointer_grabbed = true) ∧
    (∀ (r : Replies) (button : Nat), (Nothing.run cfg inputs).returned = none →
      (Nothing.run cfg (inputs ++ [(r, XEvent.ButtonRelease button)])).wm.is_moving = false ∧
      (Nothing.run cfg (inputs ++ [(r, XEvent.ButtonRelease button)])).wm.current_moving_window
        = None ∧
      (Nothing.run cfg (inputs ++ [(r, XEvent.ButtonRelease button)])).display.pointer_grabbed
        = false) := by
  constructor
  · exact nothing_run_invariant cfg
      (fun w => w.wm.is_moving = true →
        w.wm.current_moving_window ≠ None ∧ w.display.pointer_grabbed = true)
      (fun h => absurd h (by decide))
      (fun w input hw => nothing_drag_invariant_step cfg w input hw) inputs
  · intro r button hret
    rw [nothing_run_snoc]
    unfold Nothing.World.step
    rw [hret]
    refine ⟨rfl, rfl, ?_⟩
    exact nothing_dispatch_pointer_grabbed cfg r _ (XEvent.ButtonRelease button) _

/-- Instance of C16: after a button-1 press on window 5 the drag flag is set, hence the
grab is held. -/
theorem nothing_drag_invariant_witness :
    (Nothing.run example_session
        [(example_replies, XEvent.ButtonPress 1 5 100 100)]).display.pointer_grabbed = true :=
  ((nothing_drag_invariant example_session
      [(example_replies, XEvent.ButtonPress 1 5 100 100)]).1 rfl).2

/-- C17 (evaluation at the failing input): in nothing.cpp a button-1 press on window 5
followed by a button-1 press with no sub-window leaves `is_moving = false` while the
pointer grab acquired by the first press is still held; no XUngrabPointer was issued. -/
theorem nothing_grab_held_while_idle (cfg : Session) (r : Replies) :
    (Nothing.run cfg
        [(r, XEvent.ButtonPress 1 5 100 100), (r, XEvent.ButtonPress 1 None 300 300)]).wm.is_moving
      = false ∧
    (Nothing.run cfg
        [(r, XEvent.ButtonPress 1 5 100 100),
          (r, XEvent.ButtonPress 1 None 300 300)]).display.pointer_grabbed = true ∧
    (Nothing.dispatch cfg r
        (Nothing.run cfg [(r, XEvent.ButtonPress 1 5 100 100)]).wm
        (XEvent.ButtonPress 1 None 300 300)).calls = [] := by
  refine ⟨rfl, rfl, rfl⟩

/-- C18: in nothing.cpp, a button-1 press whose sub-window is a handle W other than None
enters dragging with target W, the anchor origin read from W's attributes and the anchor
pointer at the press's root coordinates, and issues exactly one XGrabPointer; a button-1
press with sub-window None issues nothing and leaves the idle state as it is; a press of
another button changes no state and issues nothing. -/
theorem nothing_button_press (cfg : Session) (r : Replies) (s : Nothing.State)
    (button : Nat) (subwindow : Window) (x_root y_root : Int) :
    ((button = 1 ∧ subwindow ≠ None) →
      (Nothing.dispatch cfg r s (XEvent.ButtonPress button subwindow x_root y_root)).state =
          { s with
            is_moving := true,
            current_moving_window := subwindow,
            start_win_x := (r.win_attrs subwindow).x,
            start_win_y := (r.win_attrs subwindow).y,
            start_x := x_root,
            start_y := y_root } ∧
        (Nothing.dispatch cfg r s (XEvent.ButtonPress button subwindow x_root y_root)).calls =
          [Call.XGrabPointer cfg.root_window
            (ButtonPressMask ||| ButtonReleaseMask ||| PointerMotionMask)]) ∧
    ((button = 1 ∧ subwindow = None) →
      (Nothing.dispatch cfg r s
          (XEvent.ButtonPress button subwindow x_root y_root)).state.is_moving = false ∧
        (Nothing.dispatch cfg r s
          (XEvent.ButtonPress button subwindow x_root y_root)).state.current_moving_window
          = None ∧
        (Nothing.dispatch cfg r s (XEvent.ButtonPress button subwindow x_root y_root)).calls
          = [] ∧
        ((s.is_moving = false ∧ s.current_moving_window = None) →
          (Nothing.dispatch cfg r s (XEvent.ButtonPress button subwindow x_root y_root)).state
            = s)) ∧
    (button ≠ 1 →
      (Nothing.dispatch cfg r s (XEvent.ButtonPress button subwindow x_root y_root)).state = s ∧
        (Nothing.dispatch cfg r s (XEvent.ButtonPress button subwindow x_root y_root)).calls
          = []) ∧
    (Nothing.dispatch cfg r s (XEvent.ButtonPress button subwindow x_root y_root)).returned
      = none := by
  refine ⟨?_, ?_, ?_, ?_⟩
  · rintro ⟨hb, hs⟩
    simp only [Nothing.dispatch, if_pos hb, if_neg hs, and_self]
  · rintro ⟨hb, hs⟩
    simp only [Nothing.dispatch, if_pos hb, if_pos hs, true_and]
    refine ⟨hs, ?_⟩
    rintro ⟨h1, h2⟩
    cases s
    simp only at h1 h2
    subst h1 h2
    rw [hs]
  · intro hb
    simp only [Nothing.dispatch, if_neg hb, and_self]
  · simp only [Nothing.dispatch]
    repeat' split
    all_goals rfl

/-- C19: in nothing.cpp, MotionNotify at root position (px, py) while dragging issues the
single request XMoveWindow of the target to
(start_win_x + (px - start_x), start_win_y + (py - start_y)), so a motion at the anchor
pointer position moves the target to its anchor origin; otherwise it issues nothing; in
both cases the state is unchanged and no window changes width or height. -/
theorem nothing_motion_notify (cfg : Session) (r : Replies) (s : Nothing.State)
    (px py : Int) :
    ((s.is_moving = true ∧ s.current_moving_window ≠ None) →
      (Nothing.dispatch cfg r s (XEvent.MotionNotify px py)).calls =
          [Call.XMoveWindow s.current_moving_window (s.start_win_x + (px - s.start_x))
            (s.start_win_y + (py - s.start_y))] ∧
        (Nothing.dispatch cfg r s (XEvent.MotionNotify s.start_x s.start_y)).calls =
          [Call.XMoveWindow s.current_moving_window s.start_win_x s.start_win_y]) ∧
    (¬ (s.is_moving = true ∧ s.current_moving_window ≠ None) →
      (Nothing.dispatch cfg r s (XEvent.MotionNotify px py)).calls = []) ∧
    (Nothing.dispatch cfg r s (XEvent.MotionNotify px py)).state = s ∧
    (Nothing.dispatch cfg r s (XEvent.MotionNotify px py)).returned = none ∧
    (∀ (g : Window → XWindowAttributes) (v : Window),
      (placement (Nothing.dispatch cfg r s (XEvent.MotionNotify px py)).calls g v).width
          = (g v).width ∧
        (placement (Nothing.dispatch cfg r s (XEvent.MotionNotify px py)).calls g v).height
          = (g v).height) := by
  by_cases hc : s.is_moving = true ∧ s.current_moving_window ≠ None
  · refine ⟨fun _ => ⟨?_, ?_⟩, fun h => absurd hc h, ?_, ?_, ?_⟩
    · simp only [Nothing.dispatch, if_pos hc]
    · simp only [Nothing.dispatch, if_pos hc, sub_self, add_zero]
    · simp only [Nothing.dispatch, if_pos hc]
    · simp only [Nothing.dispatch, if_pos hc]
    · intro g v
      simp only [Nothing.dispatch, if_pos hc, placement, List.foldl_cons, List.foldl_nil, place]
      by_cases hv : v = s.current_moving_window
      · simp [hv]
      · simp [hv]
  · refine ⟨fun h => absurd h hc, fun _ => ?_, ?_, ?_, ?_⟩
    · simp only [Nothing.dispatch, if_neg hc]
    · simp only [Nothing.dispatch, if_neg hc]
    · simp only [Nothing.dispatch, if_neg hc]
    · intro g v
      simp only [Nothing.dispatch, if_neg hc, placement, List.foldl_nil, and_self]

/-! ## Graceful close -/

theorem delete_supported_loop_iff (a : Atom) (protocols : List Atom) :
    delete_supported_loop a protocols = true ↔ a ∈ protocols := by
  induction protocols with
  | nil => simp [delete_supported_loop]
  | cons p rest ih =>
    by_cases hp : p = a
    · simp [delete_supported_loop, hp]
    · have hp2 : ¬ a = p := fun e => hp e.symm
      simp [delete_supported_loop, hp, hp2, ih]

theorem yourmom_key_press_state (cfg : Session) (r : Replies) (s : Yourmom.State)
    (keycode : KeyCode) (state : Nat) :
    (Yourmom.key_press cfg r s keycode state).state = s := by
  unfold Yourmom.key_press
  dsimp only
  repeat' split
  all_goals rfl

/-- C20: for a window whose advertised protocols contain WM_DELETE_WINDOW (at any position,
any number of times), `close_window` of nothing.cpp and of yourmom.cpp issues exactly one
request, the XSendEvent to that window of a client message of type WM_PROTOCOLS, format 32,
data[0] = WM_DELETE_WINDOW, and no XKillClient; the key handlers that call it leave the
globals (registry and focus included) unchanged. -/
theorem close_window_delete (cfg : Session) (r : Replies) (window : Window)
    (protocols : List Atom) (hp : r.wm_protocols window = some protocols)
    (hmem : cfg.WM_DELETE_WINDOW ∈ protocols) :
    Nothing.close_window cfg r window =
        [Call.XSendEvent window NoEventMask
          { type := ClientMessage, window := window, message_type := cfg.WM_PROTOCOLS,
            format := 32, data_l0 := cfg.WM_DELETE_WINDOW, data_l1 := CurrentTime }] ∧
    Yourmom.close_window cfg r window =
        [Call.XSendEvent window NoEventMask
          { type := ClientMessage, window := window, message_type := cfg.WM_PROTOCOLS,
            format := 32, data_l0 := cfg.WM_DELETE_WINDOW, data_l1 := CurrentTime }] ∧
    (∀ v, Call.XKillClient v ∉ Nothing.close_window cfg r window) ∧
    (∀ v, Call.XKillClient v ∉ Yourmom.close_window cfg r window) ∧
    (∀ (s : Nothing.State) (keycode : KeyCode) (state : Nat),
      (Nothing.key_press cfg r s keycode state).state = s) ∧
    (∀ (s : Yourmom.State) (keycode : KeyCode) (state : Nat),
      (Yourmom.key_press cfg r s keycode state).state = s) := by
  have hloop := (delete_supported_loop_iff cfg.WM_DELETE_WINDOW protocols).2 hmem
  have h1 : Nothing.close_window cfg r window =
      [Call.XSendEvent window NoEventMask (delete_message cfg window)] := by
    simp [Nothing.close_window, hp, hloop]
  have h2 : Yourmom.close_window cfg r window =
      [Call.XSendEvent window NoEventMask (delete_message cfg window)] := by
    simp [Yourmom.close_window, hp, hloop]
  refine ⟨h1, h2, ?_, ?_, ?_, ?_⟩
  · intro v
    rw [h1]
    simp
  · intro v
    rw [h2]
    simp
  · intro s keycode state
    exact (nothing_key_press_display cfg r s keycode state Nothing.World.initial.display).2
  · intro s keycode state
    exact yourmom_key_press_state cfg r s keycode state

/-- Instance of C20: a client advertising [310, WM_DELETE_WINDOW, WM_DELETE_WINDOW]. -/
theorem close_window_delete_witness :
    (example_replies_delete.wm_protocols 9 = some [310, 301, 301] ∧
      example_session.WM_DELETE_WINDOW ∈ ([310, 301, 301] : List Atom)) ∧
    Nothing.close_window example_session example_replies_delete 9 =
      [Call.XSendEvent 9 NoEventMask
        { type := ClientMessage, window := 9, message_type := 300, format := 32,
          data_l0 := 301, data_l1 := CurrentTime }] :=
  ⟨⟨rfl, by decide⟩,
    (close_window_delete example_session example_replies_delete 9 [310, 301, 301] rfl
      (by decide)).1⟩

/-! ## Close, kill and exit key actions -/

/-- C21 as stated fails: `close_window` of nothing.cpp on a window that advertises no
protocols, or protocols without WM_DELETE_WINDOW, issues XKillClient; so does Super+Q
without Shift on such a focused window. -/
theorem nothing_close_window_unsupported_counterexample :
    Nothing.close_window example_session example_replies 9 = [Call.XKillClient 9] ∧
      Nothing.close_window example_session
          { example_replies with wm_protocols := fun _ => some [310] } 9
        = [Call.XKillClient 9] ∧
      (Nothing.dispatch example_session example_replies
          (Nothing.run example_session [(example_replies, XEvent.MapRequest 9)]).wm
          (XEvent.KeyPress 24 Mod4Mask)).calls = [Call.XKillClient 9] := by
  decide

/-- C21 (amended): in nothing.cpp, `close_window` applied to a window that does not
advertise WM_DELETE_WINDOW sends no message and issues exactly one forced termination,
XKillClient of that window; `close_window` of yourmom.cpp issues nothing for it. -/
theorem nothing_close_window_unsupported (cfg : Session) (r : Replies) (window : Window)
    (hno : ∀ protocols, r.wm_protocols window = some protocols →
      cfg.WM_DELETE_WINDOW ∉ protocols) :
    Nothing.close_window cfg r window = [Call.XKillClient window] ∧
    (∀ (v : Window) (mask : Nat) (cm : XClientMessageEvent),
      Call.XSendEvent v mask cm ∉ Nothing.close_window cfg r window) ∧
    Yourmom.close_window cfg r window = [] := by
  have h1 : Nothing.close_window cfg r window = [Call.XKillClient window] := by
    unfold Nothing.close_window
    cases hp : r.wm_protocols window with
    | none => simp
    | some protocols =>
      have hf : delete_supported_loop cfg.WM_DELETE_WINDOW protocols = false := by
        cases hl : delete_supported_loop cfg.WM_DELETE_WINDOW protocols
        · rfl
        · exact absurd ((delete_supported_loop_iff _ _).1 hl) (hno protocols hp)
      simp [hf]
  refine ⟨h1, ?_, ?_⟩
  · intro v mask cm
    rw [h1]
    simp
  · unfold Yourmom.close_window
    cases hp : r.wm_protocols window with
    | none => rfl
    | some protocols =>
      have hf : delete_supported_loop cfg.WM_DELETE_WINDOW protocols = false := by
        cases hl : delete_supported_loop cfg.WM_DELETE_WINDOW protocols
        · rfl
        · exact absurd ((delete_supported_loop_iff _ _).1 hl) (hno protocols hp)
      simp [hf]

/-- Instance of C21: window 9 of `example_replies` advertises no protocols. -/
theorem nothing_close_window_unsupported_witness :
    (∀ protocols, example_replies.wm_protocols 9 = some protocols →
        example_session.WM_DELETE_WINDOW ∉ protocols) ∧
      Nothing.close_window example_session example_replies 9 = [Call.XKillClient 9] :=
  ⟨fun _ h => (by cases h),
    (nothing_close_window_unsupported example_session example_replies 9
      (fun _ h => (by cases h))).1⟩

/-- C22: in nothing.cpp, with the Q keycode distinct from the keycodes tested before it, a
KeyPress of Q with Mod4 set issues, when Shift is set, exactly XKillClient of
`focused_window` (no message, whatever the window advertises) and, when Shift is clear,
exactly the requests of `close_window` on `focused_window`; in both cases nothing is issued
when `focused_window` is None or the root window; the state is unchanged and the loop
goes on. -/
theorem nothing_key_press_q (cfg : Session) (r : Replies) (s : Nothing.State) (state : Nat)
    (h1 : cfg.key_q_keycode ≠ cfg.key_enter_keycode)
    (h2 : cfg.key_q_keycode ≠ cfg.key_d_keycode)
    (h3 : cfg.key_q_keycode ≠ cfg.key_e_keycode)
    (hmod : state &&& Mod4Mask ≠ 0) :
    (state &&& ShiftMask ≠ 0 →
      (Nothing.dispatch cfg r s (XEvent.KeyPress cfg.key_q_keycode state)).calls =
        if s.focused_window ≠ None ∧ s.focused_window ≠ cfg.root_window then
          [Call.XKillClient s.focused_window]
        else []) ∧
    (¬ (state &&& ShiftMask ≠ 0) →
      (Nothing.dispatch cfg r s (XEvent.KeyPress cfg.key_q_keycode state)).calls =
        if s.focused_window ≠ None ∧ s.focused_window ≠ cfg.root_window then
          Nothing.close_window cfg r s.focused_window
        else []) ∧
    (Nothing.dispatch cfg r s (XEvent.KeyPress cfg.key_q_keycode state)).state = s ∧
    (Nothing.dispatch cfg r s (XEvent.KeyPress cfg.key_q_keycode state)).returned = none := by
  refine ⟨?_, ?_, ?_, ?_⟩
  · intro hs
    simp only [Nothing.dispatch, Nothing.key_press, h1, h2, h3, hmod, hs, false_and, and_true,
      not_true_eq_false, and_false, if_false, ne_eq, not_false_eq_true, true_and, if_true]
    split <;> rfl
  · intro hs
    simp only [ne_eq, not_not] at hs
    simp only [Nothing.dispatch, Nothing.key_press, h1, h2, h3, hmod, hs, false_and,
      not_true_eq_false, and_true, ne_eq, not_false_eq_true, true_and, if_false, if_true]
    split <;> rfl
  · exact (nothing_key_press_display cfg r s _ state Nothing.World.initial.display).2
  · by_cases hs : state &&& ShiftMask ≠ 0
    · simp only [Nothing.dispatch, Nothing.key_press, h1, h2, h3, hmod, hs, false_and,
        and_true, not_true_eq_false, and_false, if_false, ne_eq, not_false_eq_true, true_and,
        if_true]
      split <;> rfl
    · simp only [ne_eq, not_not] at hs
      simp only [Nothing.dispatch, Nothing.key_press, h1, h2, h3, hmod, hs, false_and,
        not_true_eq_false, and_true, ne_eq, not_false_eq_true, true_and, if_false, if_true]
      split <;> rfl

/-- Instance of C22: Super+Shift+Q on the focused window 7 of `example_drag_state`. -/
theorem nothing_key_press_q_witness :
    (example_session.key_q_keycode ≠ example_session.key_enter_keycode ∧
      example_session.key_q_keycode ≠ example_session.key_d_keycode ∧
      example_session.key_q_keycode ≠ example_session.key_e_keycode ∧
      (Mod4Mask ||| ShiftMask) &&& Mod4Mask ≠ 0 ∧ (Mod4Mask ||| ShiftMask) &&& ShiftMask ≠ 0) ∧
    (Nothing.dispatch example_session example_replies example_drag_state
        (XEvent.KeyPress example_session.key_q_keycode (Mod4Mask ||| ShiftMask))).calls
      = [Call.XKillClient 7] :=
  ⟨⟨by decide, by decide, by decide, by decide, by decide⟩,
    ((nothing_key_press_q example_session example_replies example_drag_state
      (Mod4Mask ||| ShiftMask) (by decide) (by decide) (by decide) (by decide)).1
      (by decide)).trans rfl⟩

theorem nothing_key_press_returned (cfg : Session) (r : Replies) (s : Nothing.State)
    (keycode : KeyCode) (state : Nat) :
    (Nothing.key_press cfg r s keycode state).returned = none ∨
      ((Nothing.key_press cfg r s keycode state).returned = some 0 ∧
        keycode = cfg.key_m_keycode ∧ state &&& Mod4Mask ≠ 0) := by
  unfold Nothing.key_press
  repeat' split
  all_goals first
    | exact Or.inl rfl
    | (next hm => exact Or.inr ⟨rfl, hm.1, hm.2⟩)

/-- C23: in nothing.cpp, with the M keycode distinct from the other grabbed keycodes, one
iteration of the loop returns from `main` (with value 0) if and only if the event is a
KeyPress of the M keycode with Mod4 set; for every other event, unknown types and unbound
keys included, the loop goes on. -/
theorem nothing_loop_exit (cfg : Session) (r : Replies) (s : Nothing.State) (e : XEvent)
    (h1 : cfg.key_m_keycode ≠ cfg.key_enter_keycode)
    (h2 : cfg.key_m_keycode ≠ cfg.key_d_keycode)
    (h3 : cfg.key_m_keycode ≠ cfg.key_e_keycode)
    (h4 : cfg.key_m_keycode ≠ cfg.key_q_keycode) :
    ((Nothing.dispatch cfg r s e).returned = some 0 ↔
      ∃ state, e = XEvent.KeyPress cfg.key_m_keycode state ∧ state &&& Mod4Mask ≠ 0) ∧
    ((¬ ∃ state, e = XEvent.KeyPress cfg.key_m_keycode state ∧ state &&& Mod4Mask ≠ 0) →
      (Nothing.dispatch cfg r s e).returned = none) := by
  have hexit : ∀ state, state &&& Mod4Mask ≠ 0 →
      (Nothing.key_press cfg r s cfg.key_m_keycode state).returned = some 0 := by
    intro state hmod
    simp [Nothing.key_press, h1, h2, h3, h4, hmod]
  have hkey : ∀ keycode state,
      (Nothing.dispatch cfg r s (XEvent.KeyPress keycode state)).returned
        = (Nothing.key_press cfg r s keycode state).returned := fun _ _ => rfl
  have hother : (∀ keycode state, e ≠ XEvent.KeyPress keycode state) →
      (Nothing.dispatch cfg r s e).returned = none := by
    intro hne
    cases e <;> first
      | exact absurd rfl (hne _ _)
      | (simp only [Nothing.dispatch]; repeat' split) <;> rfl
  constructor
  · constructor
    · intro hret
      cases e with
      | KeyPress keycode state =>
        rw [hkey] at hret
        rcases nothing_key_press_returned cfg r s keycode state with hn | ⟨_, hk, hmod⟩
        · rw [hn] at hret
          cases hret
        · exact ⟨state, by rw [hk], hmod⟩
      | _ =>
        rw [hother (fun _ _ h => by cases h)] at hret
        cases hret
    · rintro ⟨state, rfl, hmod⟩
      rw [hkey]
      exact hexit state hmod
  · intro hno
    cases e with
    | KeyPress keycode state =>
      rw [hkey]
      rcases nothing_key_press_returned cfg r s keycode state with hn | ⟨_, hk, hmod⟩
      · exact hn
      · exact absurd ⟨state, by rw [hk], hmod⟩ hno
    | _ => exact hother (fun _ _ h => by cases h)

/-- Instance of C23: Super+M ends the loop of `example_session`. -/
theorem nothing_loop_exit_witness :
    (example_session.key_m_keycode ≠ example_session.key_enter_keycode ∧
      example_session.key_m_keycode ≠ example_session.key_d_keycode ∧
      example_session.key_m_keycode ≠ example_session.key_e_keycode ∧
      example_session.key_m_keycode ≠ example_session.key_q_keycode) ∧
    (Nothing.dispatch example_session example_replies Nothing.State.initial
        (XEvent.KeyPress example_session.key_m_keycode Mod4Mask)).returned = some 0 :=
  ⟨⟨by decide, by decide, by decide, by decide⟩,
    (nothing_loop_exit example_session example_replies Nothing.State.initial
      (XEvent.KeyPress example_session.key_m_keycode Mod4Mask)
      (by decide) (by decide) (by decide) (by decide)).1.2 ⟨Mod4Mask, rfl, by decide⟩⟩

/-! ## Frame conditions -/

/-- C24: in nothing.cpp, `managed_windows` changes only on MapRequest and DestroyNotify and
`focused_window` only on MapRequest, EnterNotify and DestroyNotify: every other event
(CreateNotify, ConfigureRequest, PropertyNotify, Expose, ButtonPress, MotionNotify,
ButtonRelease, KeyPress, unknown types) leaves both unchanged, and EnterNotify leaves
`managed_windows` unchanged. -/
theorem nothing_frame (cfg : Session) (r : Replies) (s : Nothing.State) (e : XEvent) :
    (((∀ w, e ≠ XEvent.MapRequest w) ∧ (∀ w, e ≠ XEvent.DestroyNotify w)) →
      (Nothing.dispatch cfg r s e).state.managed_windows = s.managed_windows) ∧
    (((∀ w, e ≠ XEvent.MapRequest w) ∧ (∀ w mode, e ≠ XEvent.EnterNotify w mode) ∧
        (∀ w, e ≠ XEvent.DestroyNotify w)) →
      (Nothing.dispatch cfg r s e).state.focused_window = s.focused_window) ∧
    (∀ w button subwindow x_root y_root px py keycode state atom x y width height
        border_width above detail value_mask,
      e ∈ [XEvent.CreateNotify w,
            XEvent.ConfigureRequest w x y width height border_width above detail value_mask,
            XEvent.PropertyNotify w atom, XEvent.Expose w,
            XEvent.ButtonPress button subwindow x_root y_root, XEvent.MotionNotify px py,
            XEvent.ButtonRelease button, XEvent.KeyPress keycode state] →
      (Nothing.dispatch cfg r s e).state.managed_windows = s.managed_windows ∧
        (Nothing.dispatch cfg r s e).state.focused_window = s.focused_window) := by
  have hm : ((∀ w, e ≠ XEvent.MapRequest w) ∧ (∀ w, e ≠ XEvent.DestroyNotify w)) →
      (Nothing.dispatch cfg r s e).state.managed_windows = s.managed_windows := by
    rintro ⟨hmap, hdes⟩
    rw [nothing_dispatch_managed_windows]
    cases e <;> first
      | rfl
      | exact absurd rfl (hmap _)
      | exact absurd rfl (hdes _)
  have hf : ((∀ w, e ≠ XEvent.MapRequest w) ∧ (∀ w mode, e ≠ XEvent.EnterNotify w mode) ∧
        (∀ w, e ≠ XEvent.DestroyNotify w)) →
      (Nothing.dispatch cfg r s e).state.focused_window = s.focused_window := by
    rintro ⟨hmap, hent, hdes⟩
    rw [nothing_dispatch_focused_window]
    cases e <;> first
      | rfl
      | exact absurd rfl (hmap _)
      | exact absurd rfl (hdes _)
      | exact absurd rfl (hent _ _)
  refine ⟨hm, hf, ?_⟩
  intro w button subwindow x_root y_root px py keycode state atom x y width height
    border_width above detail value_mask hmem
  simp only [List.mem_cons, List.mem_singleton, List.not_mem_nil, or_false] at hmem
  constructor
  · apply hm
    rcases hmem with h | h | h | h | h | h | h | h <;> subst h <;>
      exact ⟨fun _ hh => (by cases hh), fun _ hh => (by cases hh)⟩
  · apply hf
    rcases hmem with h | h | h | h | h | h | h | h <;> subst h <;>
      exact ⟨fun _ hh => (by cases hh), fun _ _ hh => (by cases hh), fun _ hh => (by cases hh)⟩

/-! ## Lemmas on the geometry requests of the handlers -/

theorem geometry_window_move_resize (v : Window) (x y width height : Int) :
    (Call.XMoveResizeWindow v x y width height).geometry_window = some v := rfl

theorem nothing_stack_loop_count (mw sw sh : Int) (w : Window) :
    ∀ (rest : List Window) (start : Int),
      ((Nothing.stack_loop mw sw sh start rest).filter
        (fun c => decide (c.geometry_window = some w))).length = rest.count w := by
  intro rest
  induction rest with
  | nil => intro start; rfl
  | cons v rest ih =>
    intro start
    by_cases hv : v = w
    · simp [Nothing.stack_loop, geometry_window_move_resize, hv, ih]
    · simp [Nothing.stack_loop, geometry_window_move_resize, hv, ih, List.count_cons]

/-- The number of requests of `tile_windows` addressed to `w` is the number of entries of
the registry equal to `w`. -/
theorem nothing_tile_windows_count (managed_windows : List Window)
    (root_attrs : XWindowAttributes) (w : Window) :
    ((Nothing.tile_windows managed_windows root_attrs).filter
      (fun c => decide (c.geometry_window = some w))).length = managed_windows.count w := by
  cases managed_windows with
  | nil => rfl
  | cons w0 stack =>
    simp only [Nothing.tile_windows]
    split
    · next hone =>
      have hstack : stack = [] := by
        simp only [List.length_cons, Nat.cast_add, Nat.cast_one] at hone
        have : stack.length = 0 := by omega
        exact List.length_eq_zero.1 this
      subst hstack
      by_cases hv : w0 = w
      · simp [geometry_window_move_resize, hv]
      · simp [geometry_window_move_resize, hv, List.count_cons]
    · by_cases hv : w0 = w
      · simp [geometry_window_move_resize, hv, nothing_stack_loop_count]
      · simp [geometry_window_move_resize, hv, nothing_stack_loop_count, List.count_cons]

theorem nothing_tile_windows_filter_geometry (managed_windows : List Window)
    (root_attrs : XWindowAttributes) :
    (Nothing.tile_windows managed_windows root_attrs).filter
        (fun c => c.geometry_window.isSome)
      = Nothing.tile_windows managed_windows root_attrs := by
  rw [List.filter_eq_self]
  intro c hc
  obtain ⟨w, x, y, wd, ht, rfl⟩ := nothing_tile_windows_move_resize _ _ c hc
  rfl

/-- Among the requests of the MapRequest and DestroyNotify handlers only those of
`tile_windows` on the new registry are geometry requests. -/
theorem nothing_dispatch_geometry_calls (cfg : Session) (r : Replies) (s : Nothing.State)
    (e : XEvent) (h : Window) (he : e = XEvent.MapRequest h ∨ e = XEvent.DestroyNotify h)
    (p : Call → Bool) (hp : ∀ c : Call, c.geometry_window = none → p c = false) :
    (Nothing.dispatch cfg r s e).calls.filter p =
      (Nothing.tile_windows (Nothing.dispatch cfg r s e).state.managed_windows
        r.root_attrs).filter p := by
  rcases he with rfl | rfl
  · have h1 : p (Call.XMapWindow h) = false := hp _ rfl
    have h2 : p (Call.XSetInputFocus h) = false := hp _ rfl
    have h3 : ∀ v c, p (Call.XSetWindowBorder v c) = false := fun _ _ => hp _ rfl
    by_cases hf : s.focused_window = None
    · simp [Nothing.dispatch, Nothing.set_window_border, List.filter_append, List.filter_cons,
        h1, h2, h3, hf]
    · simp [Nothing.dispatch, Nothing.set_window_border, List.filter_append, List.filter_cons,
        h1, h2, h3, hf]
  · rfl

/-! ## Tiling after a registry change -/

/-- C25: in nothing.cpp, after MapRequest or DestroyNotify handled from a state whose
registry has no duplicates, the geometry requests issued are exactly those of
`tile_windows` on the new registry: the one at index i is the move-resize of the window at
index i to the rectangle the layout gives to index i of the new registry (width and height
as passed, converted to `unsigned int`), every managed window is addressed by exactly one geometry request, and none is issued when the new
registry is empty. -/
theorem nothing_retile_on_registry_change (cfg : Session) (r : Replies) (s : Nothing.State)
    (e : XEvent) (h : Window) (he : e = XEvent.MapRequest h ∨ e = XEvent.DestroyNotify h)
    (hnd : s.managed_windows.Nodup) :
    (Nothing.dispatch cfg r s e).calls.filter (fun c => c.geometry_window.isSome) =
      Nothing.tile_windows (Nothing.dispatch cfg r s e).state.managed_windows r.root_attrs ∧
    (∀ (i : Nat) (hi : i < (Nothing.dispatch cfg r s e).state.managed_windows.length),
      ((Nothing.dispatch cfg r s e).calls.filter (fun c => c.geometry_window.isSome))[i]? =
        some (Call.XMoveResizeWindow
          ((Nothing.dispatch cfg r s e).state.managed_windows.get ⟨i, hi⟩)
          (spec_compute_layout 20 2 r.root_attrs.width r.root_attrs.height
            (Nothing.dispatch cfg r s e).state.managed_windows.length i).x
          (spec_compute_layout 20 2 r.root_attrs.width r.root_attrs.height
            (Nothing.dispatch cfg r s e).state.managed_windows.length i).y
          (unsigned_int (spec_compute_layout 20 2 r.root_attrs.width r.root_attrs.height
            (Nothing.dispatch cfg r s e).state.managed_windows.length i).width)
          (unsigned_int (spec_compute_layout 20 2 r.root_attrs.width r.root_attrs.height
            (Nothing.dispatch cfg r s e).state.managed_windows.length i).height))) ∧
    (∀ w ∈ (Nothing.dispatch cfg r s e).state.managed_windows,
      ((Nothing.dispatch cfg r s e).calls.filter
        (fun c => decide (c.geometry_window = some w))).length = 1) ∧
    ((Nothing.dispatch cfg r s e).state.managed_windows = [] →
      (Nothing.dispatch cfg r s e).calls.filter (fun c => c.geometry_window.isSome) = []) := by
  have hgeo : (Nothing.dispatch cfg r s e).calls.filter (fun c => c.geometry_window.isSome) =
      Nothing.tile_windows (Nothing.dispatch cfg r s e).state.managed_windows
        r.root_attrs := by
    rw [nothing_dispatch_geometry_calls cfg r s e h he _ (fun c hc => by simp [hc]),
      nothing_tile_windows_filter_geometry]
  refine ⟨hgeo, ?_, ?_, ?_⟩
  · intro i hi
    rw [hgeo]
    exact nothing_tile_windows_layout _ _ i hi
  · intro w hw
    rw [nothing_dispatch_geometry_calls cfg r s e h he _ (fun c hc => by simp [hc]),
      nothing_tile_windows_count]
    exact List.count_eq_one_of_mem (nothing_dispatch_nodup cfg r s e hnd) hw
  · intro hempty
    rw [hgeo, hempty]
    rfl

/-- Instance of C25: MapRequest 7 on a state managing [5] retiles [5, 7]. -/
theorem nothing_retile_on_registry_change_witness :
    ((Nothing.run example_session
        [(example_replies, XEvent.MapRequest 5)]).wm.managed_windows.Nodup) ∧
    (Nothing.dispatch example_session example_replies
        (Nothing.run example_session [(example_replies, XEvent.MapRequest 5)]).wm
        (XEvent.MapRequest 7)).calls.filter (fun c => c.geometry_window.isSome) =
      Nothing.tile_windows
        (Nothing.dispatch example_session example_replies
          (Nothing.run example_session [(example_replies, XEvent.MapRequest 5)]).wm
          (XEvent.MapRequest 7)).state.managed_windows example_replies.root_attrs :=
  ⟨by decide,
    (nothing_retile_on_registry_change example_session example_replies
      (Nothing.run example_session [(example_replies, XEvent.MapRequest 5)]).wm
      (XEvent.MapRequest 7) 7 (Or.inl rfl) (by decide)).1⟩

/-! ## Geometry of the layout -/

/-- For two or more windows, a property of the width and height holds of every request of
`tile_windows` of nothing.cpp exactly when it holds of the sizes passed for the master
and of those passed for a stack window. -/
theorem nothing_tile_windows_sizes (managed_windows : List Window)
    (root_attrs : XWindowAttributes) (hN : 2 ≤ managed_windows.length)
    (hW0 : 0 ≤ root_attrs.width) (hW1 : root_attrs.width ≤ 65535) (P : Int → Int → Prop) :
    (∀ c ∈ Nothing.tile_windows managed_windows root_attrs,
        ∀ w x y width height, c = Call.XMoveResizeWindow w x y width height →
          P width height) ↔
      (P (unsigned_int (3 * root_attrs.width / 5 - 2 * 2))
          (unsigned_int (root_attrs.height - 20 - 2 * 2)) ∧
        P (unsigned_int (root_attrs.width - 3 * root_attrs.width / 5 - 2 * 2))
          (unsigned_int
            ((root_attrs.height - 20).tdiv ((managed_windows.length : Int) - 1) - 2 * 2))) := by
  have hmw := master_width_eq root_attrs.width hW0 hW1
  have hone : managed_windows.length ≠ 1 := by omega
  have h0 : 0 < managed_windows.length := by omega
  have h1 : 1 < managed_windows.length := by omega
  have hmaster := nothing_tile_windows_layout managed_windows root_attrs 0 h0
  have hfirst := nothing_tile_windows_layout managed_windows root_attrs 1 h1
  simp only [spec_compute_layout, hone, if_false, if_true, hmw] at hmaster
  simp only [spec_compute_layout, hone, if_false, one_ne_zero, hmw] at hfirst
  constructor
  · intro hall
    exact ⟨hall _ (List.getElem?_mem hmaster) _ _ _ _ _ rfl,
      hall _ (List.getElem?_mem hfirst) _ _ _ _ _ rfl⟩
  · rintro ⟨hm, hs⟩ c hc w x y width height hcw
    obtain ⟨i, hget⟩ := List.mem_iff_getElem?.1 hc
    have hi : i < managed_windows.length := by
      by_contra hge
      rw [List.getElem?_eq_none (by rw [nothing_tile_windows_length]; omega)] at hget
      cases hget
    have hlay := nothing_tile_windows_layout managed_windows root_attrs i hi
    rw [hget, hcw] at hlay
    simp only [Option.some.injEq, Call.XMoveResizeWindow.injEq] at hlay
    obtain ⟨_, _, _, hwd, hht⟩ := hlay
    by_cases hi0 : i = 0
    · simp only [spec_compute_layout, hone, if_false, hi0, if_true, hmw] at hwd hht
      rw [hwd, hht]
      exact hm
    · simp only [spec_compute_layout, hone, if_false, hi0, hmw] at hwd hht
      rw [hwd, hht]
      exact hs

/-- C27 as stated fails: on a 1920x26 screen with three windows every width and height
`tile_windows` of nothing.cpp passes is strictly positive (the stack height -1 arrives as
4294967295), although (26 - 20) / (3 - 1) = 3 is not greater than 2b = 4. -/
theorem nothing_tile_windows_positive_counterexample :
    (∀ c ∈ Nothing.tile_windows [5, 6, 7] { x := 0, y := 0, width := 1920, height := 26 },
        ∀ w x y width height, c = Call.XMoveResizeWindow w x y width height →
          0 < width ∧ 0 < height) ∧
      ¬ (((26 : Int) - 20).tdiv (((3 : Nat) : Int) - 1) > 2 * 2) ∧
      Nothing.tile_windows [5, 6, 7] { x := 0, y := 0, width := 1920, height := 26 } =
        [Call.XMoveResizeWindow 5 0 20 1148 2, Call.XMoveResizeWindow 6 1152 20 764 4294967295,
          Call.XMoveResizeWindow 7 1152 23 764 4294967295] := by
  have hlist : Nothing.tile_windows [5, 6, 7] { x := 0, y := 0, width := 1920, height := 26 } =
      [Call.XMoveResizeWindow 5 0 20 1148 2, Call.XMoveResizeWindow 6 1152 20 764 4294967295,
        Call.XMoveResizeWindow 7 1152 23 764 4294967295] := by
    decide
  refine ⟨?_, by decide, hlist⟩
  rw [hlist]
  intro c hc w x y width height hcw
  simp only [List.mem_cons, List.mem_singleton, List.not_mem_nil, or_false] at hc
  rcases hc with rfl | rfl | rfl <;> cases hcw <;> exact ⟨by decide, by decide⟩

/-- C27 (amended): in nothing.cpp, for N >= 2 windows and a screen of width W in 0..65535
and height H with -2147483648 <= H - 24 and H <= 2147483647, the widths and heights
`tile_windows` passes to move-resize are converted to `unsigned int`, so that
(a) all of them are strictly positive if and only if none of floor(3W/5) - 4,
W - floor(3W/5) - 4, H - 20 - 4 and (H - 20) / (N - 1) - 4 is zero, and
(b) all of them are strictly positive and at most 2147483647 (positive as `int`) if and
only if floor(3W/5) > 4, W - floor(3W/5) > 4, H - 20 > 4 and (H - 20) / (N - 1) > 4
(b = 2); on a screen of height 1080 the height passed for each stacked window is 1 for
N = 213, 0 for N = 214 and 4294967295 for N = 267. -/
theorem nothing_tile_windows_positive (managed_windows : List Window)
    (root_attrs : XWindowAttributes) (hN : 2 ≤ managed_windows.length)
    (hW0 : 0 ≤ root_attrs.width) (hW1 : root_attrs.width ≤ 65535)
    (hH0 : -2147483648 ≤ root_attrs.height - 20 - 2 * 2)
    (hH1 : root_attrs.height ≤ 2147483647) :
    ((∀ c ∈ Nothing.tile_windows managed_windows root_attrs,
        ∀ w x y width height, c = Call.XMoveResizeWindow w x y width height →
          0 < width ∧ 0 < height) ↔
      (3 * root_attrs.width / 5 ≠ 2 * 2 ∧
        root_attrs.width - 3 * root_attrs.width / 5 ≠ 2 * 2 ∧
        root_attrs.height - 20 ≠ 2 * 2 ∧
        (root_attrs.height - 20).tdiv ((managed_windows.length : Int) - 1) ≠ 2 * 2)) ∧
    ((∀ c ∈ Nothing.tile_windows managed_windows root_attrs,
        ∀ w x y width height, c = Call.XMoveResizeWindow w x y width height →
          (0 < width ∧ width ≤ 2147483647) ∧ (0 < height ∧ height ≤ 2147483647)) ↔
      (3 * root_attrs.width / 5 > 2 * 2 ∧
        root_attrs.width - 3 * root_attrs.width / 5 > 2 * 2 ∧
        root_attrs.height - 20 > 2 * 2 ∧
        (root_attrs.height - 20).tdiv ((managed_windows.length : Int) - 1) > 2 * 2)) ∧
    (root_attrs.height = 1080 →
      (managed_windows.length = 213 →
        ∀ (i : Nat) (hi : i < managed_windows.length), 1 ≤ i →
          ∃ x y width, (Nothing.tile_windows managed_windows root_attrs)[i]? =
            some (Call.XMoveResizeWindow (managed_windows.get ⟨i, hi⟩) x y width 1)) ∧
      (managed_windows.length = 214 →
        ∀ (i : Nat) (hi : i < managed_windows.length), 1 ≤ i →
          ∃ x y width, (Nothing.tile_windows managed_windows root_attrs)[i]? =
            some (Call.XMoveResizeWindow (managed_windows.get ⟨i, hi⟩) x y width 0)) ∧
      (managed_windows.length = 267 →
        ∀ (i : Nat) (hi : i < managed_windows.length), 1 ≤ i →
          ∃ x y width, (Nothing.tile_windows managed_windows root_attrs)[i]? =
            some (Call.XMoveResizeWindow (managed_windows.get ⟨i, hi⟩) x y width
              4294967295))) := by
  have hone : managed_windows.length ≠ 1 := by omega
  have hn : (1 : Int) ≤ (managed_windows.length : Int) - 1 := by omega
  have hb := tdiv_bounds (root_attrs.height - 20) ((managed_windows.length : Int) - 1) hn
  have hq0 : -2147483648 ≤
      (root_attrs.height - 20).tdiv ((managed_windows.length : Int) - 1) - 2 * 2 := by
    rcases le_total 0 (root_attrs.height - 20) with h | h
    · have := (hb.1 h).1
      omega
    · have := (hb.2 h).1
      omega
  have hq1 : (root_attrs.height - 20).tdiv ((managed_windows.length : Int) - 1) - 2 * 2
      ≤ 2147483647 := by
    rcases le_total 0 (root_attrs.height - 20) with h | h
    · have := (hb.1 h).2
      omega
    · have := (hb.2 h).2
      omega
  have hp1 := unsigned_int_pos_iff (3 * root_attrs.width / 5 - 2 * 2) (by omega) (by omega)
  have hp2 := unsigned_int_pos_iff (root_attrs.width - 3 * root_attrs.width / 5 - 2 * 2)
    (by omega) (by omega)
  have hp3 := unsigned_int_pos_iff (root_attrs.height - 20 - 2 * 2) (by omega) (by omega)
  have hp4 := unsigned_int_pos_iff
    ((root_attrs.height - 20).tdiv ((managed_windows.length : Int) - 1) - 2 * 2)
    (by omega) (by omega)
  have hr1 := unsigned_int_int_range_iff (3 * root_attrs.width / 5 - 2 * 2) (by omega)
    (by omega)
  have hr2 := unsigned_int_int_range_iff
    (root_attrs.width - 3 * root_attrs.width / 5 - 2 * 2) (by omega) (by omega)
  have hr3 := unsigned_int_int_range_iff (root_attrs.height - 20 - 2 * 2) hH0 (by omega)
  have hr4 := unsigned_int_int_range_iff
    ((root_attrs.height - 20).tdiv ((managed_windows.length : Int) - 1) - 2 * 2) hq0 hq1
  have hstackht : root_attrs.height = 1080 → ∀ (n : Nat) (v : Int),
      managed_windows.length = n →
      unsigned_int (((1080 : Int) - 20).tdiv ((n : Int) - 1) - 2 * 2) = v →
      ∀ (i : Nat) (hi : i < managed_windows.length), 1 ≤ i →
        ∃ x y width, (Nothing.tile_windows managed_windows root_attrs)[i]? =
          some (Call.XMoveResizeWindow (managed_windows.get ⟨i, hi⟩) x y width v) := by
    intro hH n v hlen hv i hi hi1
    subst hlen
    have hlay := nothing_tile_windows_layout managed_windows root_attrs i hi
    have hi0 : i ≠ 0 := by omega
    have hht : unsigned_int (spec_compute_layout 20 2 root_attrs.width root_attrs.height
        managed_windows.length i).height = v := by
      rw [← hv]
      simp only [spec_compute_layout, hone, if_false, hi0, hH]
    rw [hht] at hlay
    exact ⟨_, _, _, hlay⟩
  refine ⟨?_, ?_, ?_⟩
  · rw [nothing_tile_windows_sizes managed_windows root_attrs hN hW0 hW1
      (fun width height => 0 < width ∧ 0 < height)]
    simp only [hp1, hp2, hp3, hp4]
    constructor
    · rintro ⟨⟨a, b⟩, c, d⟩
      exact ⟨by omega, by omega, by omega, by omega⟩
    · rintro ⟨a, b, c, d⟩
      exact ⟨⟨by omega, by omega⟩, by omega, by omega⟩
  · rw [nothing_tile_windows_sizes managed_windows root_attrs hN hW0 hW1
      (fun width height => (0 < width ∧ width ≤ 2147483647) ∧
        (0 < height ∧ height ≤ 2147483647))]
    simp only [hr1, hr2, hr3, hr4]
    constructor
    · rintro ⟨⟨a, b⟩, c, d⟩
      exact ⟨by omega, by omega, by omega, by omega⟩
    · rintro ⟨a, b, c, d⟩
      exact ⟨⟨by omega, by omega⟩, by omega, by omega⟩
  · intro hH
    exact ⟨fun hlen => hstackht hH 213 1 hlen (by decide),
      fun hlen => hstackht hH 214 0 hlen (by decide),
      fun hlen => hstackht hH 267 4294967295 hlen (by decide)⟩

/-- Instance of C27: three windows on a 1280x1024 screen satisfy the four conditions, so
every width and height passed is positive and at most 2147483647. -/
theorem nothing_tile_windows_positive_witness :
    (2 ≤ ([11, 12, 13] : List Window).length ∧ (0 : Int) ≤ 1280 ∧ (1280 : Int) ≤ 65535 ∧
      (-2147483648 : Int) ≤ 1024 - 20 - 2 * 2 ∧ (1024 : Int) ≤ 2147483647) ∧
    (∀ c ∈ Nothing.tile_windows [11, 12, 13] { x := 0, y := 0, width := 1280, height := 1024 },
      ∀ w x y width height, c = Call.XMoveResizeWindow w x y width height →
        (0 < width ∧ width ≤ 2147483647) ∧ (0 < height ∧ height ≤ 2147483647)) :=
  ⟨⟨by decide, by decide, by decide, by decide, by decide⟩,
    (nothing_tile_windows_positive [11, 12, 13]
      { x := 0, y := 0, width := 1280, height := 1024 } (by decide) (by decide)
      (by decide) (by decide) (by decide)).2.1.2 ⟨by decide, by decide, by decide, by decide⟩⟩

/-! ## Focus and registry -/

/-- One iteration keeps the focused window among: None, the registry, the windows already
allowed by `S`, and the window of the EnterNotify just handled. -/
theorem nothing_focus_membership_step (cfg : Session) (w : Nothing.World)
    (input : Replies × XEvent) (S : Window → Prop)
    (hw : w.wm.focused_window = None ∨ w.wm.focused_window ∈ w.wm.managed_windows ∨
      S w.wm.focused_window) :
    (Nothing.World.step cfg w input).wm.focused_window = None ∨
      (Nothing.World.step cfg w input).wm.focused_window
        ∈ (Nothing.World.step cfg w input).wm.managed_windows ∨
      (S (Nothing.World.step cfg w input).wm.focused_window ∨
        ∃ mode, input.2 =
          XEvent.EnterNotify (Nothing.World.step cfg w input).wm.focused_window mode) := by
  have hkeep : w.wm.focused_window = None ∨ w.wm.focused_window ∈ w.wm.managed_windows ∨
      (S w.wm.focused_window ∨ ∃ mode, input.2 = XEvent.EnterNotify w.wm.focused_window mode) := by
    rcases hw with h | h | h
    · exact Or.inl h
    · exact Or.inr (Or.inl h)
    · exact Or.inr (Or.inr (Or.inl h))
  unfold Nothing.World.step
  split
  · exact hkeep
  · obtain ⟨r, e⟩ := input
    have hf := nothing_dispatch_focused_window cfg r w.wm e
    have hm := nothing_dispatch_managed_windows cfg r w.wm e
    dsimp only at hkeep ⊢
    generalize (Nothing.dispatch cfg r w.wm e).state.focused_window = f2 at hf ⊢
    generalize (Nothing.dispatch cfg r w.wm e).state.managed_windows = m2 at hm ⊢
    cases e with
    | MapRequest window =>
      simp only at hf hm
      subst hf hm
      right
      left
      cases hfe : find_is_end w.wm.managed_windows f2
      · simp only [Bool.false_eq_true, if_false]
        by_contra hnot
        rw [(find_is_end_iff _ _).2 hnot] at hfe
        cases hfe
      · simp
    | DestroyNotify window =>
      simp only at hf hm
      subst hf hm
      by_cases hfw : w.wm.focused_window = window
      · left
        rw [if_pos hfw]
      · rw [if_neg hfw]
        rcases hw with h | h | h
        · exact Or.inl h
        · exact Or.inr (Or.inl ((mem_erase_remove _ _ _).2 ⟨h, hfw⟩))
        · exact Or.inr (Or.inr (Or.inl h))
    | EnterNotify window mode =>
      simp only at hf hm
      subst hm
      by_cases hc : window ≠ cfg.root_window ∧ window ≠ w.wm.focused_window
      · rw [if_pos hc] at hf
        subst hf
        exact Or.inr (Or.inr (Or.inr ⟨mode, rfl⟩))
      · rw [if_neg hc] at hf
        subst hf
        exact hkeep
    | CreateNotify window => simp only at hf hm; subst hf hm; exact hkeep
    | ConfigureRequest window x y width height border_width above detail value_mask =>
      simp only at hf hm; subst hf hm; exact hkeep
    | PropertyNotify window atom => simp only at hf hm; subst hf hm; exact hkeep
    | Expose window => simp only at hf hm; subst hf hm; exact hkeep
    | ButtonPress button subwindow x_root y_root =>
      simp only at hf hm; subst hf hm; exact hkeep
    | MotionNotify x_root y_root => simp only at hf hm; subst hf hm; exact hkeep
    | ButtonRelease button => simp only at hf hm; subst hf hm; exact hkeep
    | KeyPress keycode state => simp only at hf hm; subst hf hm; exact hkeep
    | other type => simp only at hf hm; subst hf hm; exact hkeep

theorem nothing_focus_membership_fold (cfg : Session) :
    ∀ (inputs : List (Replies × XEvent)) (w : Nothing.World) (S : Window → Prop),
      (w.wm.focused_window = None ∨ w.wm.focused_window ∈ w.wm.managed_windows ∨
        S w.wm.focused_window) →
      (inputs.foldl (Nothing.World.step cfg) w).wm.focused_window = None ∨
        (inputs.foldl (Nothing.World.step cfg) w).wm.focused_window
          ∈ (inputs.foldl (Nothing.World.step cfg) w).wm.managed_windows ∨
        (S (inputs.foldl (Nothing.World.step cfg) w).wm.focused_window ∨
          ∃ r mode,
            (r, XEvent.EnterNotify (inputs.foldl (Nothing.World.step cfg) w).wm.focused_window
              mode) ∈ inputs) := by
  intro inputs
  induction inputs with
  | nil =>
    intro w S hw
    rcases hw with h | h | h
    · exact Or.inl h
    · exact Or.inr (Or.inl h)
    · exact Or.inr (Or.inr (Or.inl h))
  | cons input rest ih =>
    intro w S hw
    have hstep := nothing_focus_membership_step cfg w input S hw
    have := ih (Nothing.World.step cfg w input)
      (fun f => S f ∨ ∃ mode, input.2 = XEvent.EnterNotify f mode) hstep
    simp only [List.foldl_cons]
    rcases this with h | h | (h | ⟨mode, h⟩) | ⟨r, mode, h⟩
    · exact Or.inl h
    · exact Or.inr (Or.inl h)
    · exact Or.inr (Or.inr (Or.inl h))
    · refine Or.inr (Or.inr (Or.inr ⟨input.1, mode, ?_⟩))
      rw [← h]
      exact List.mem_cons_self _ _
    · exact Or.inr (Or.inr (Or.inr ⟨r, mode, List.mem_cons_of_mem _ h⟩))

/-- C28 as stated fails: an EnterNotify for window 9, which is not managed, makes it the
focused window, and Super+Shift+Q then kills it. -/
theorem nothing_focus_unmanaged_counterexample :
    (Nothing.run example_session
        [(example_replies, XEvent.EnterNotify 9 0)]).wm.focused_window = 9 ∧
      (9 : Window) ≠ None ∧
      (9 : Window) ∉ (Nothing.run example_session
        [(example_replies, XEvent.EnterNotify 9 0)]).wm.managed_windows ∧
      (Nothing.dispatch example_session example_replies
          (Nothing.run example_session [(example_replies, XEvent.EnterNotify 9 0)]).wm
          (XEvent.KeyPress 24 (Mod4Mask ||| ShiftMask))).calls = [Call.XKillClient 9] := by
  decide

/-- C28 (amended): in nothing.cpp, at every event boundary reached from program start,
`focused_window` is None, or a member of `managed_windows`, or the window of an EnterNotify
that was delivered. -/
theorem nothing_focus_membership (cfg : Session) (inputs : List (Replies × XEvent)) :
    (Nothing.run cfg inputs).wm.focused_window = None ∨
      (Nothing.run cfg inputs).wm.focused_window ∈ (Nothing.run cfg inputs).wm.managed_windows ∨
      ∃ r mode,
        (r, XEvent.EnterNotify (Nothing.run cfg inputs).wm.focused_window mode) ∈ inputs := by
  have h := nothing_focus_membership_fold cfg inputs Nothing.World.initial (fun _ => False)
    (Or.inl rfl)
  rcases h with h | h | (h | h)
  · exact Or.inl h
  · exact Or.inr (Or.inl h)
  · exact absurd h id
  · exact Or.inr (Or.inr h)

end MyWindowsManager
